import Mathlib

/-!
Verification of the MealMetrics AI-response ingestion pipeline.

This file gives a shallow embedding of the pieces of
`src/ai/vision_analyzer.py` and `src/utils/helpers.py` that the claims
concern: the tolerant numeric parser `parse_numeric_value`, the result
validation/enrichment logic of `VisionAnalyzer.analyze_food_image`
(lines 272-418), the regex-salvage and generic-fallback recovery paths
(lines 429-487), the multi-model dispatch loop (lines 124-202), and the
calorie-range note `_get_calorie_range` (lines 672-682).

Python `float` values are modelled by `ℚ` (exact arithmetic; every
numeric fact proved below is about values on which binary floating
point is exact or about order/sign only).  JSON values are modelled by
`JsonVal`; a parsed JSON object (Python dict) is an insertion-ordered
association list `Dict`.
-/

namespace MealMetrics

/-- A parsed JSON value as produced by Python's `json.loads`.
Python `bool` is kept separate from numbers because `isinstance(b, int)`
holds for bools (they act as 0/1 in arithmetic and comparisons). -/
inductive JsonVal where
  | null
  | bool (b : Bool)
  | num (q : ℚ)
  | str (s : String)
  | arr (items : List JsonVal)
  | obj (fields : List (String × JsonVal))

/-- A Python dict with string keys, as an insertion-ordered association
list.  `json.loads` produces unique keys; all operations below read the
first binding and update in place, matching dict semantics. -/
abbrev Dict := List (String × JsonVal)

/-- `d[k]` lookup: first binding wins. -/
def dget : Dict → String → Option JsonVal
  | [], _ => none
  | (k1, v) :: rest, k => if k1 = k then some v else dget rest k

/-- `d.get(k, dflt)`. -/
def dgetD (d : Dict) (k : String) (dflt : JsonVal) : JsonVal :=
  (dget d k).getD dflt

/-- `k in d`. -/
def dhas (d : Dict) (k : String) : Bool :=
  (dget d k).isSome

/-- `d[k] = v`: replace the first binding in place, else append
(Python dict insertion order). -/
def dset : Dict → String → JsonVal → Dict
  | [], k, v => [(k, v)]
  | (k1, v1) :: rest, k, v =>
      if k1 = k then (k, v) :: rest else (k1, v1) :: dset rest k v

/-- The key list of a dict, in insertion order. -/
def dkeys (d : Dict) : List String := d.map Prod.fst

/-- Python truthiness of a JSON value (`bool(v)`). -/
def truthy : JsonVal → Bool
  | .null => false
  | .bool b => b
  | .num q => decide (q ≠ 0)
  | .str s => decide (s ≠ "")
  | .arr items => !items.isEmpty
  | .obj fields => !fields.isEmpty

/-- Python `v == q` for a numeric literal `q` on the right: numbers and
bools compare by value, everything else is unequal (`==` never raises). -/
def pyEqNum (v : JsonVal) (q : ℚ) : Bool :=
  match v with
  | .num a => decide (a = q)
  | .bool b => decide ((if b then (1 : ℚ) else 0) = q)
  | _ => false

/-- Python `v == s` for a string literal `s` on the right. -/
def pyEqStr (v : JsonVal) (s : String) : Bool :=
  match v with
  | .str a => decide (a = s)
  | _ => false

/-- Errors of the validation path.  `missingField` models the explicit
"Missing required field in AI response: {field}" early return;
`typeError` models a Python `TypeError`/`AttributeError` escaping to the
generic `except Exception` handler of `analyze_food_image` (the analysis
then fails with an "Unexpected error" message). -/
inductive ValidationErr where
  | missingField (field : String)
  | typeError
deriving DecidableEq

/-- Python `v > q` against a numeric literal: numbers and bools compare
by value, any other operand raises `TypeError`. -/
def pyGtNum (v : JsonVal) (q : ℚ) : Except ValidationErr Bool :=
  match v with
  | .num a => .ok (decide (q < a))
  | .bool b => .ok (decide (q < if b then (1 : ℚ) else 0))
  | _ => .error .typeError

/-- Python `v < q` against a numeric literal. -/
def pyLtNum (v : JsonVal) (q : ℚ) : Except ValidationErr Bool :=
  match v with
  | .num a => .ok (decide (a < q))
  | .bool b => .ok (decide ((if b then (1 : ℚ) else 0) < q))
  | _ => .error .typeError

/-- The operand of Python arithmetic (`*`, `/`): numbers and bools are
usable (bools as 0/1), anything else raises `TypeError`. -/
def asNum : JsonVal → Except ValidationErr ℚ
  | .num q => .ok q
  | .bool b => .ok (if b then 1 else 0)
  | _ => .error .typeError

/-! ### `parse_numeric_value` (src/utils/helpers.py lines 358-372)

The Python code extracts the first match of the regex `\d+\.?\d*` from a
string: a run of digits, optionally followed by a dot and further
digits.  The sign is never part of the match. -/

/-- Value of a digit character. -/
def digitVal (c : Char) : ℕ := c.toNat - 48

/-- Numeric value of a digit run. -/
def digitsToNat (cs : List Char) : ℕ :=
  cs.foldl (fun n c => 10 * n + digitVal c) 0

/-- Value of the decimal literal `intPart . fracPart` as a rational:
`(I * 10^k + F) / 10^k` where `k` is the number of fraction digits. -/
def decimalVal (intPart fracPart : List Char) : ℚ :=
  mkRat (digitsToNat intPart * 10 ^ fracPart.length + digitsToNat fracPart)
    (10 ^ fracPart.length)

/-- First match of `\d+\.?\d*` in a character list: at the first digit,
take the maximal digit run, then an optional dot with a (possibly
empty) further digit run (`float("3.") = 3.0`). -/
def extractFirstNumber : List Char → Option ℚ
  | [] => none
  | c :: cs =>
      if c.isDigit then
        let ip := (c :: cs).takeWhile Char.isDigit
        let rest := (c :: cs).dropWhile Char.isDigit
        match rest with
        | '.' :: rest2 => some (decimalVal ip (rest2.takeWhile Char.isDigit))
        | _ => some (decimalVal ip [])
      else extractFirstNumber cs

/-- Does the string contain any digit (i.e. does `re.findall` succeed)? -/
def hasDigit (s : String) : Bool := s.data.any Char.isDigit

/-- `parse_numeric_value(value, default)`: ints/floats (and bools, which
are ints in Python) are returned as-is; strings yield the first unsigned
decimal literal or the default; any other type yields the default. -/
def parse_numeric_value (v : JsonVal) (dflt : ℚ) : ℚ :=
  match v with
  | .num q => q
  | .bool b => if b then 1 else 0
  | .str s =>
      match extractFirstNumber s.data with
      | some q => q
      | none => dflt
  | _ => dflt

/-! ### String helpers shared by the validator and the salvage path -/

/-- Match a literal character sequence at the head of the input,
returning the remainder on success. -/
def matchLit : List Char → List Char → Option (List Char)
  | [], cs => some cs
  | _ :: _, [] => none
  | l :: ls, c :: cs => if c = l then matchLit ls cs else none

/-- Python substring test `needle in haystack`. -/
def containsSub (needle : List Char) : List Char → Bool
  | [] => (matchLit needle []).isSome
  | c :: rest => (matchLit needle (c :: rest)).isSome || containsSub needle rest

/-- Python `s.split(sep)` for a one-character separator: always returns
at least one (possibly empty) piece. -/
def pySplit (sep : Char) : List Char → List (List Char)
  | [] => [[]]
  | c :: rest =>
      match pySplit sep rest with
      | [] => [[]]
      | grp :: grps => if c = sep then [] :: grp :: grps else (c :: grp) :: grps

/-- Python `s.strip()`. -/
def pyStrip (cs : List Char) : List Char :=
  ((cs.dropWhile Char.isWhitespace).reverse.dropWhile Char.isWhitespace).reverse

/-! ### Result Validator & Enricher
(`VisionAnalyzer.analyze_food_image`, src/ai/vision_analyzer.py 272-418) -/

/-- Lines 273-278: the three required fields, checked in order; the
first absent one aborts the analysis. -/
def requiredCheck (d : Dict) : Option ValidationErr :=
  if !dhas d "description" then some (.missingField "description")
  else if !dhas d "total_calories" then some (.missingField "total_calories")
  else if !dhas d "confidence" then some (.missingField "confidence")
  else none

/-- `if k not in d: d[k] = v`. -/
def defaultIfAbsent (d : Dict) (k : String) (v : JsonVal) : Dict :=
  if dhas d k then d else dset d k v

/-- Lines 281-296: defaults for the optional fields, in source order. -/
def applyDefaults (d : Dict) : Dict :=
  defaultIfAbsent (defaultIfAbsent (defaultIfAbsent (defaultIfAbsent
    (defaultIfAbsent (defaultIfAbsent (defaultIfAbsent (defaultIfAbsent d
      "health_category" (.str "moderate"))
      "health_score" (.num 5))
      "witty_comment" (.str ""))
      "recommendations" (.str ""))
      "fun_fact" (.str ""))
      "total_carbs" (.num 0))
      "total_protein" (.num 0))
      "total_fat" (.num 0)

/-- One synthesized food item (lines 308-317 / 323-332).  `cal` is the
value stored under "calories" (the raw `total_calories` object in the
single-item branch, the computed per-item share otherwise); `calNum` is
its numeric value, used for the 50/20/30 macro estimates; `hs` is the
raw top-level `health_score` object, copied as-is. -/
def synthItem (name : String) (cal : JsonVal) (calNum : ℚ) (hs : JsonVal) : JsonVal :=
  .obj [("name", .str name),
        ("portion", .str "estimated portion"),
        ("calories", cal),
        ("carbs", .num (calNum * (1/2) / 4)),
        ("protein", .num (calNum * (1/5) / 4)),
        ("fat", .num (calNum * (3/10) / 9)),
        ("cooking_method", .str "prepared"),
        ("health_score", hs)]

/-- The condition of line 299: `'food_items' not in analysis_result or
not analysis_result['food_items']`. -/
def foodItemsMissing (d : Dict) : Bool :=
  match dget d "food_items" with
  | none => true
  | some v => !truthy v

/-- Lines 304-332: the synthesized item list.  `tcRaw` is the raw
`total_calories` object (stored as the single item's calories), `tc`
its numeric value, `hs` the raw top-level health score. -/
def synthItemsOf (description : String) (tcRaw : JsonVal) (tc : ℚ) (hs : JsonVal) :
    List JsonVal :=
  let food_names := (pySplit ',' description.data).map
    (fun cs => String.mk (pyStrip cs))
  if food_names.length = 1 && !description.data.contains ',' then
    [synthItem (food_names.headD "") tcRaw tc hs]
  else
    let cpi := if food_names.isEmpty then tc else tc / (food_names.length : ℚ)
    food_names.map (fun n => synthItem n (.num cpi) cpi hs)

/-- Lines 299-335: if `food_items` is absent or falsy, synthesize items
by splitting the description on commas.  A non-string description makes
`description.split` raise; a non-numeric `total_calories` makes the
macro arithmetic (or the per-item division) raise — both before any
item is stored, so the numeric check is hoisted ahead of the branch. -/
def synthFoodItems (d : Dict) : Except ValidationErr Dict :=
  if foodItemsMissing d then
    match dgetD d "description" (.str "Food item") with
    | .str description =>
        match asNum (dgetD d "total_calories" (.num 0)) with
        | .error e => .error e
        | .ok tc =>
            .ok (dset d "food_items"
              (.arr (synthItemsOf description (dgetD d "total_calories" (.num 0)) tc
                (dgetD d "health_score" (.num 5)))))
    | _ => .error .typeError
  else .ok d

/-- Lines 338-343: when `total_carbs == 0` (Python `==`, no raise) and
the raw `total_calories > 0` (raises on non-numeric operands), back-fill
the three macros with the 50/20/30 split. -/
def backfillMacros (d : Dict) : Except ValidationErr Dict :=
  if pyEqNum (dgetD d "total_carbs" (.num 0)) 0 then
    match pyGtNum (dgetD d "total_calories" (.num 0)) 0,
          asNum (dgetD d "total_calories" (.num 0)) with
    | .ok true, .ok tc =>
        .ok (dset (dset (dset d
          "total_carbs" (.num (tc * (1/2) / 4)))
          "total_protein" (.num (tc * (1/5) / 4)))
          "total_fat" (.num (tc * (3/10) / 9)))
    | .ok false, _ => .ok d
    | .error e, _ => .error e
    | .ok true, .error e => .error e
  else .ok d

def wittyJunk : String :=
  "That's quite a calorie-dense choice! Your future self might have some words about this decision."

def wittyHealthy : String :=
  "Great choice! Your body will thank you for this nutritious fuel."

def wittyModerate : String :=
  "A balanced meal that fits well into a healthy eating pattern."

/-- Lines 346-355: synthesize `witty_comment` when falsy, choosing the
text from `health_category` and the raw calories (the comparisons with
800/300 raise on non-numeric calories unless short-circuited). -/
def fillWitty (d : Dict) : Except ValidationErr Dict :=
  if !truthy (dgetD d "witty_comment" .null) then
    let calories := dgetD d "total_calories" (.num 0)
    let hc := dgetD d "health_category" (.str "moderate")
    if pyEqStr hc "junk" then .ok (dset d "witty_comment" (.str wittyJunk))
    else match pyGtNum calories 800 with
    | .error e => .error e
    | .ok true => .ok (dset d "witty_comment" (.str wittyJunk))
    | .ok false =>
        if pyEqStr hc "healthy" then .ok (dset d "witty_comment" (.str wittyHealthy))
        else match pyLtNum calories 300 with
        | .error e => .error e
        | .ok true => .ok (dset d "witty_comment" (.str wittyHealthy))
        | .ok false => .ok (dset d "witty_comment" (.str wittyModerate))
  else .ok d

def recsJunk : String :=
  "Consider balancing this with extra vegetables and water. Maybe plan a lighter next meal?"

def recsHealthy : String :=
  "Keep up the great choices! This meal provides good nutrition and energy."

def recsModerate : String :=
  "Try adding more vegetables or lean protein to boost the nutritional value."

/-- Lines 357-365: synthesize `recommendations` when falsy (pure — only
string comparisons). -/
def fillRecommendations (d : Dict) : Dict :=
  if !truthy (dgetD d "recommendations" .null) then
    let hc := dgetD d "health_category" (.str "moderate")
    if pyEqStr hc "junk" then dset d "recommendations" (.str recsJunk)
    else if pyEqStr hc "healthy" then dset d "recommendations" (.str recsHealthy)
    else dset d "recommendations" (.str recsModerate)
  else d

def funFactText : String :=
  "Did you know? It takes about 20 minutes for your brain to register that you're full, so eating slowly can help with portion control!"

/-- Lines 367-368: synthesize `fun_fact` when falsy. -/
def fillFunFact (d : Dict) : Dict :=
  if !truthy (dgetD d "fun_fact" .null) then dset d "fun_fact" (.str funFactText)
  else d

def itemFieldKeys : List String :=
  ["calories", "carbs", "protein", "fat", "health_score"]

/-- `if k in d: d[k] = parse_numeric_value(d.get(k, dflt), float(dflt))`
— the in-place numeric re-parse applied to item fields (lines 377-386)
and to the top-level macros (lines 389-396). -/
def reparseKey (d : Dict) (k : String) (dflt : ℚ) : Dict :=
  if dhas d k then
    dset d k (.num (parse_numeric_value (dgetD d k (.num dflt)) dflt))
  else d

/-- Lines 377-386 applied to one dict-valued item: each of the five
numeric keys, when present, is re-parsed in place. -/
def parseItemFieldsObj (fs : Dict) : Dict :=
  reparseKey (reparseKey (reparseKey (reparseKey (reparseKey fs
    "calories" 0) "carbs" 0) "protein" 0) "fat" 0) "health_score" 5

/-- Lines 376-386 for one item of `food_items`.  Python duck typing:
a dict item is processed; `'calories' in item` on a string item is a
substring test whose success leads to a raising string item-assignment;
on a list item it is a membership test; on numbers/bools/None the `in`
operator itself raises. -/
def parseItemNums1 : JsonVal → Except ValidationErr JsonVal
  | .obj fs => .ok (.obj (parseItemFieldsObj fs))
  | .str s =>
      if itemFieldKeys.any (fun k => containsSub k.data s.data) then .error .typeError
      else .ok (.str s)
  | .arr xs =>
      if itemFieldKeys.any (fun k => xs.any (fun x => pyEqStr x k)) then .error .typeError
      else .ok (.arr xs)
  | _ => .error .typeError

/-- `for item in food_items` with first-raise semantics. -/
def mapItems : List JsonVal → Except ValidationErr (List JsonVal)
  | [] => .ok []
  | x :: xs =>
      match parseItemNums1 x with
      | .error e => .error e
      | .ok y =>
          match mapItems xs with
          | .error e => .error e
          | .ok ys => .ok (y :: ys)

/-- Iterating a truthy `food_items` value: a list yields its elements;
a string yields single characters (no key is a substring of one
character, so nothing happens); a dict yields its keys (a key containing
one of the five field names leads to a raising string item-assignment);
numbers/bools are not iterable. -/
def parseFoodItemsVal : JsonVal → Except ValidationErr JsonVal
  | .arr xs =>
      match mapItems xs with
      | .error e => .error e
      | .ok ys => .ok (.arr ys)
  | .str s => .ok (.str s)
  | .obj fs =>
      if fs.any (fun kv => itemFieldKeys.any (fun k => containsSub k.data kv.1.data)) then
        .error .typeError
      else .ok (.obj fs)
  | _ => .error .typeError

/-- Lines 375-386: numeric re-parse of the items when `food_items` is
present and truthy. -/
def parseFoodItemNums (d : Dict) : Except ValidationErr Dict :=
  if dhas d "food_items" && truthy (dgetD d "food_items" .null) then
    match parseFoodItemsVal (dgetD d "food_items" .null) with
    | .error e => .error e
    | .ok v => .ok (dset d "food_items" v)
  else .ok d

/-- Lines 389-396: re-parse the total macros and `health_score` when
present. -/
def parseTotalMacros (d : Dict) : Dict :=
  reparseKey (reparseKey (reparseKey (reparseKey d
    "total_carbs" 0) "total_protein" 0) "total_fat" 0) "health_score" 5

/-- Lines 371-403: tolerant numeric re-parse of `total_calories` and
`confidence`, item-field and macro re-parse, and the final range clamps.
In the clamps, `cq` and `tcq` equal the current dict entries because no
step after their writes touches those two keys. -/
def numericAndClampStage (d : Dict) : Except ValidationErr Dict :=
  let tcq := parse_numeric_value (dgetD d "total_calories" (.num 0)) 0
  let d := dset d "total_calories" (.num tcq)
  let cq := parse_numeric_value (dgetD d "confidence" (.num 0)) 70
  let d := dset d "confidence" (.num cq)
  match parseFoodItemNums d with
  | .error e => .error e
  | .ok d =>
    let d := parseTotalMacros d
    let d := if cq < 0 ∨ 100 < cq then
      dset d "confidence" (.num (max 0 (min 100 cq))) else d
    let d := if tcq < 0 then dset d "total_calories" (.num 0) else d
    .ok d

/-- The full primary validation path, lines 272-418: required-field
check, optional-field defaulting, food-item synthesis, macro back-fill,
commentary synthesis, then the numeric re-parse and range clamps. -/
def validateAndEnrich (d0 : Dict) : Except ValidationErr Dict :=
  match requiredCheck d0 with
  | some e => .error e
  | none =>
    let d := applyDefaults d0
    match synthFoodItems d with
    | .error e => .error e
    | .ok d =>
      match backfillMacros d with
      | .error e => .error e
      | .ok d =>
        match fillWitty d with
        | .error e => .error e
        | .ok d => numericAndClampStage (fillFunFact (fillRecommendations d))

/-! ### Dict lemmas -/

theorem dget_dset_self (d : Dict) (k : String) (v : JsonVal) :
    dget (dset d k v) k = some v := by
  induction d with
  | nil => simp [dset, dget]
  | cons kv rest ih =>
      obtain ⟨k1, v1⟩ := kv
      by_cases h : k1 = k <;> simp [dset, dget, h, ih]

theorem dget_dset_ne (d : Dict) {k k1 : String} (v : JsonVal) (h : k1 ≠ k) :
    dget (dset d k v) k1 = dget d k1 := by
  induction d with
  | nil => simp [dset, dget, Ne.symm h]
  | cons kv rest ih =>
      obtain ⟨k2, v2⟩ := kv
      by_cases h2 : k2 = k
      · subst h2; simp [dset, dget, Ne.symm h]
      · by_cases h3 : k2 = k1 <;> simp [dset, dget, h2, h3, h, ih]

theorem dset_id {d : Dict} {k : String} {v : JsonVal} (h : dget d k = some v) :
    dset d k v = d := by
  induction d with
  | nil => simp [dget] at h
  | cons kv rest ih =>
      obtain ⟨k1, v1⟩ := kv
      by_cases h1 : k1 = k
      · subst h1
        simp [dget] at h
        simp [dset, h]
      · simp [dget, h1] at h
        simp [dset, h1, ih h]

theorem dhas_of_dget {d : Dict} {k : String} {v : JsonVal} (h : dget d k = some v) :
    dhas d k = true := by
  simp [dhas, h]

theorem dgetD_of_dget {d : Dict} {k : String} {v dflt : JsonVal} (h : dget d k = some v) :
    dgetD d k dflt = v := by
  simp [dgetD, h]

theorem dget_defaultIfAbsent_ne (d : Dict) {k k1 : String} (v : JsonVal) (h : k1 ≠ k) :
    dget (defaultIfAbsent d k v) k1 = dget d k1 := by
  unfold defaultIfAbsent
  split
  · rfl
  · exact dget_dset_ne d v h

theorem dget_defaultIfAbsent_self (d : Dict) (k : String) (v : JsonVal) :
    dget (defaultIfAbsent d k v) k = some ((dget d k).getD v) := by
  unfold defaultIfAbsent
  rcases h : dget d k with _ | w
  · simp [dhas, h, dget_dset_self]
  · simp [dhas, h]

theorem defaultIfAbsent_of_dget {d : Dict} {k : String} {w : JsonVal} (v : JsonVal)
    (h : dget d k = some w) : defaultIfAbsent d k v = d := by
  simp [defaultIfAbsent, dhas, h]

/-- The eight keys written by `applyDefaults`. -/
def defaultKeys : List String :=
  ["health_category", "health_score", "witty_comment", "recommendations",
   "fun_fact", "total_carbs", "total_protein", "total_fat"]

theorem dget_applyDefaults_ne (d : Dict) {k : String} (h : k ∉ defaultKeys) :
    dget (applyDefaults d) k = dget d k := by
  simp [defaultKeys] at h
  obtain ⟨h1, h2, h3, h4, h5, h6, h7, h8⟩ := h
  unfold applyDefaults
  rw [dget_defaultIfAbsent_ne _ _ h8, dget_defaultIfAbsent_ne _ _ h7,
      dget_defaultIfAbsent_ne _ _ h6, dget_defaultIfAbsent_ne _ _ h5,
      dget_defaultIfAbsent_ne _ _ h4, dget_defaultIfAbsent_ne _ _ h3,
      dget_defaultIfAbsent_ne _ _ h2, dget_defaultIfAbsent_ne _ _ h1]

theorem dget_applyDefaults_health_score (d : Dict) :
    dget (applyDefaults d) "health_score" =
      some ((dget d "health_score").getD (.num 5)) := by
  unfold applyDefaults
  rw [dget_defaultIfAbsent_ne _ _ (by decide), dget_defaultIfAbsent_ne _ _ (by decide),
      dget_defaultIfAbsent_ne _ _ (by decide), dget_defaultIfAbsent_ne _ _ (by decide),
      dget_defaultIfAbsent_ne _ _ (by decide), dget_defaultIfAbsent_ne _ _ (by decide),
      dget_defaultIfAbsent_self,
      dget_defaultIfAbsent_ne _ _ (by decide)]

/-! ### Preservation lemmas: which keys each stage can write -/

theorem synthFoodItems_pres {d r : Dict} {k : String}
    (h : synthFoodItems d = .ok r) (hk : k ≠ "food_items") :
    dget r k = dget d k := by
  unfold synthFoodItems at h
  split at h
  · split at h
    · split at h
      · exact absurd h (by simp)
      · simp only [Except.ok.injEq] at h
        subst h
        exact dget_dset_ne d _ hk
    · exact absurd h (by simp)
  · simp only [Except.ok.injEq] at h
    subst h
    rfl

theorem reparseKey_pres (d : Dict) {k k1 : String} (dflt : ℚ) (h : k1 ≠ k) :
    dget (reparseKey d k dflt) k1 = dget d k1 := by
  unfold reparseKey
  split
  · exact dget_dset_ne d _ h
  · rfl

theorem backfillMacros_pres {d r : Dict} {k : String}
    (h : backfillMacros d = .ok r)
    (h1 : k ≠ "total_carbs") (h2 : k ≠ "total_protein") (h3 : k ≠ "total_fat") :
    dget r k = dget d k := by
  unfold backfillMacros at h
  split at h
  · split at h
    · simp only [Except.ok.injEq] at h
      subst h
      rw [dget_dset_ne _ _ h3, dget_dset_ne _ _ h2, dget_dset_ne _ _ h1]
    · simp only [Except.ok.injEq] at h
      subst h
      rfl
    · exact absurd h (by simp)
    · exact absurd h (by simp)
  · simp only [Except.ok.injEq] at h
    subst h
    rfl

theorem fillWitty_pres {d r : Dict} {k : String}
    (h : fillWitty d = .ok r) (hk : k ≠ "witty_comment") :
    dget r k = dget d k := by
  unfold fillWitty at h
  split at h
  · simp only [] at h
    split at h
    · simp only [Except.ok.injEq] at h
      subst h
      exact dget_dset_ne d _ hk
    · split at h
      · exact absurd h (by simp)
      · simp only [Except.ok.injEq] at h
        subst h
        exact dget_dset_ne d _ hk
      · split at h
        · simp only [Except.ok.injEq] at h
          subst h
          exact dget_dset_ne d _ hk
        · split at h
          · exact absurd h (by simp)
          · simp only [Except.ok.injEq] at h
            subst h
            exact dget_dset_ne d _ hk
          · simp only [Except.ok.injEq] at h
            subst h
            exact dget_dset_ne d _ hk
  · simp only [Except.ok.injEq] at h
    subst h
    rfl

theorem fillRecommendations_pres (d : Dict) {k : String} (hk : k ≠ "recommendations") :
    dget (fillRecommendations d) k = dget d k := by
  unfold fillRecommendations
  split
  · simp only []
    split
    · exact dget_dset_ne d _ hk
    · split
      · exact dget_dset_ne d _ hk
      · exact dget_dset_ne d _ hk
  · rfl

theorem fillFunFact_pres (d : Dict) {k : String} (hk : k ≠ "fun_fact") :
    dget (fillFunFact d) k = dget d k := by
  unfold fillFunFact
  split
  · exact dget_dset_ne d _ hk
  · rfl

theorem parseFoodItemNums_pres {d r : Dict} {k : String}
    (h : parseFoodItemNums d = .ok r) (hk : k ≠ "food_items") :
    dget r k = dget d k := by
  unfold parseFoodItemNums at h
  split at h
  · split at h
    · exact absurd h (by simp)
    · simp only [Except.ok.injEq] at h
      subst h
      exact dget_dset_ne d _ hk
  · simp only [Except.ok.injEq] at h
    subst h
    rfl

theorem parseTotalMacros_pres (d : Dict) {k : String}
    (h1 : k ≠ "total_carbs") (h2 : k ≠ "total_protein") (h3 : k ≠ "total_fat")
    (h4 : k ≠ "health_score") :
    dget (parseTotalMacros d) k = dget d k := by
  unfold parseTotalMacros
  rw [reparseKey_pres _ _ h4, reparseKey_pres _ _ h3, reparseKey_pres _ _ h2,
      reparseKey_pres _ _ h1]

/-! ### Facts about any successfully validated analysis object -/

/-- The confidence and total-calories entries of the dict produced by
the tail of `validateAndEnrich` (numeric writes, item/macro re-parse,
range clamps). -/
theorem finalDict_facts (A d5 r : Dict) (tcq cq : ℚ)
    (hfi : parseFoodItemNums
      (dset (dset A "total_calories" (.num tcq)) "confidence" (.num cq)) = .ok d5)
    (hr : r = (if tcq < 0 then
        dset (if cq < 0 ∨ 100 < cq then
            dset (parseTotalMacros d5) "confidence" (.num (max 0 (min 100 cq)))
          else parseTotalMacros d5) "total_calories" (.num 0)
      else (if cq < 0 ∨ 100 < cq then
            dset (parseTotalMacros d5) "confidence" (.num (max 0 (min 100 cq)))
          else parseTotalMacros d5))) :
    (∃ q, dget r "confidence" = some (.num q) ∧ 0 ≤ q ∧ q ≤ 100) ∧
    (∃ q, dget r "total_calories" = some (.num q) ∧ 0 ≤ q) := by
  have hconf5 : dget (parseTotalMacros d5) "confidence" = some (.num cq) := by
    rw [parseTotalMacros_pres d5 (by decide) (by decide) (by decide) (by decide),
        parseFoodItemNums_pres hfi (by decide), dget_dset_self]
  have htc5 : dget (parseTotalMacros d5) "total_calories" = some (.num tcq) := by
    rw [parseTotalMacros_pres d5 (by decide) (by decide) (by decide) (by decide),
        parseFoodItemNums_pres hfi (by decide),
        dget_dset_ne _ _ (by decide), dget_dset_self]
  by_cases hc : cq < 0 ∨ 100 < cq
  · rw [if_pos hc] at hr
    by_cases ht : tcq < 0
    · rw [if_pos ht] at hr
      subst hr
      constructor
      · refine ⟨max 0 (min 100 cq), ?_, le_max_left 0 _, ?_⟩
        · rw [dget_dset_ne _ _ (by decide), dget_dset_self]
        · exact max_le (by norm_num) (min_le_left 100 cq)
      · exact ⟨0, by rw [dget_dset_self], le_refl 0⟩
    · rw [if_neg ht] at hr
      subst hr
      constructor
      · exact ⟨max 0 (min 100 cq), by rw [dget_dset_self],
          le_max_left 0 _, max_le (by norm_num) (min_le_left 100 cq)⟩
      · exact ⟨tcq, by rw [dget_dset_ne _ _ (by decide)]; exact htc5,
          le_of_not_lt ht⟩
  · rw [if_neg hc] at hr
    push_neg at hc
    by_cases ht : tcq < 0
    · rw [if_pos ht] at hr
      subst hr
      constructor
      · exact ⟨cq, by rw [dget_dset_ne _ _ (by decide)]; exact hconf5, hc.1, hc.2⟩
      · exact ⟨0, by rw [dget_dset_self], le_refl 0⟩
    · rw [if_neg ht] at hr
      subst hr
      exact ⟨⟨cq, hconf5, hc.1, hc.2⟩, ⟨tcq, htc5, le_of_not_lt ht⟩⟩

/-- The numeric/clamp stage alone already guarantees the two range
facts of any successful result. -/
theorem numericAndClampStage_parts {A r : Dict}
    (h : numericAndClampStage A = .ok r) :
    (∃ q, dget r "confidence" = some (.num q) ∧ 0 ≤ q ∧ q ≤ 100) ∧
    (∃ q, dget r "total_calories" = some (.num q) ∧ 0 ≤ q) := by
  unfold numericAndClampStage at h
  simp only [] at h
  split at h
  · exact absurd h (by simp)
  · simp only [Except.ok.injEq] at h
    exact finalDict_facts _ _ _ _ _ (by assumption) h.symm

/-- Any dict returned by the primary validation path has a numeric
confidence in [0,100] and a numeric non-negative total_calories. -/
theorem validateAndEnrich_ok_parts {d0 r : Dict} (h : validateAndEnrich d0 = .ok r) :
    (∃ q, dget r "confidence" = some (.num q) ∧ 0 ≤ q ∧ q ≤ 100) ∧
    (∃ q, dget r "total_calories" = some (.num q) ∧ 0 ≤ q) := by
  unfold validateAndEnrich at h
  split at h
  · exact absurd h (by simp)
  · simp only [] at h
    split at h
    · exact absurd h (by simp)
    · split at h
      · exact absurd h (by simp)
      · split at h
        · exact absurd h (by simp)
        · exact numericAndClampStage_parts h

/-! ### Recovery paths (lines 420-497)

When the candidate text does not parse as JSON even after repair, the
code falls into the `except json.JSONDecodeError` handler.  Strategy 1
(regex salvage, lines 429-466) applies if the raw text contains both
`"description"` and `"total_calories"` as substrings; strategy 2
(generic fallback, lines 468-487) applies otherwise.  The Python regex
searches are modelled by direct left-to-right scanners; each pattern's
backtracking is deterministic except for the two `[^}]*` stars of the
per-item pattern, which are handled by a greedy longest-first
combinator. -/

/-- Python regex `\s` (ASCII part). -/
def pySpace (c : Char) : Bool :=
  c = ' ' || c = '\t' || c = '\n' || c = '\r' || c = '\x0b' || c = '\x0c'

/-- Match `\s*(\d+(?:\.\d+)?)` at the head: skip whitespace, then a
digit run, then optionally a dot followed by a nonempty digit run
(without one the dot is not consumed).  Returns the numeric value and
the remainder. -/
def numAfterWs (cs0 : List Char) : Option (ℚ × List Char) :=
  let cs := cs0.dropWhile pySpace
  match cs with
  | c :: _ =>
      if c.isDigit then
        let ip := cs.takeWhile Char.isDigit
        let rest := cs.dropWhile Char.isDigit
        match rest with
        | '.' :: r2 =>
            let fp := r2.takeWhile Char.isDigit
            if fp.isEmpty then some (decimalVal ip [], rest)
            else some (decimalVal ip fp, r2.dropWhile Char.isDigit)
        | _ => some (decimalVal ip [], rest)
      else none
  | [] => none

/-- Match `\s*"([^"]*)"` at the head, returning the capture. -/
def strAfterWs (cs0 : List Char) : Option String :=
  let cs := cs0.dropWhile pySpace
  match cs with
  | '"' :: rest =>
      let cap := rest.takeWhile (fun c => c ≠ '"')
      match rest.dropWhile (fun c => c ≠ '"') with
      | '"' :: _ => some (String.mk cap)
      | _ => none
  | _ => none

/-- `re.search` for `<pat>\s*(\d+(?:\.\d+)?)`: try each start position
left to right. -/
def searchKeyNum (pat : List Char) : List Char → Option ℚ
  | [] => none
  | c :: rest =>
      match matchLit pat (c :: rest) with
      | some after =>
          match numAfterWs after with
          | some (q, _) => some q
          | none => searchKeyNum pat rest
      | none => searchKeyNum pat rest

/-- `re.search` for `<pat>\s*"([^"]*)"`. -/
def searchKeyStr (pat : List Char) : List Char → Option String
  | [] => none
  | c :: rest =>
      match matchLit pat (c :: rest) with
      | some after =>
          match strAfterWs after with
          | some s => some s
          | none => searchKeyStr pat rest
      | none => searchKeyStr pat rest

/-- `re.search` for `"food_items":\s*\[(.*?)\]` with DOTALL: the lazy
star captures up to the first `]`; with no `]` the search moves on. -/
def foodItemsSpan (pat : List Char) : List Char → Option (List Char)
  | [] => none
  | c :: rest =>
      match matchLit pat (c :: rest) with
      | some after =>
          match after.dropWhile pySpace with
          | '[' :: r =>
              (match r.dropWhile (fun x => x ≠ ']') with
               | ']' :: _ => some (r.takeWhile (fun x => x ≠ ']'))
               | _ => foodItemsSpan pat rest)
          | _ => foodItemsSpan pat rest
      | none => foodItemsSpan pat rest

/-- Greedy star over a character class with backtracking: consume as
many class characters as possible, then hand progressively shorter
prefixes to the continuation. -/
def tryStar {α : Type} (p : Char → Bool) (cs : List Char)
    (k : List Char → Option α) : Option α :=
  (List.range ((cs.takeWhile p).length + 1)).reverse.findSome?
    (fun n => k (cs.drop n))

def nameKeyLit : List Char := "\"name\":".data

def calKeyLit : List Char := "\"calories\":".data

/-- The per-item pattern
`\{[^}]*"name":\s*"([^"]*)"[^}]*"calories":\s*(\d+(?:\.\d+)?)[^}]*\}`
matched right after the opening brace; returns the two captures and the
remainder after the closing brace. -/
def matchItemBody (cs0 : List Char) : Option (String × ℚ × List Char) :=
  tryStar (fun c => c ≠ '\x7d') cs0 (fun cs1 =>
    match matchLit nameKeyLit cs1 with
    | none => none
    | some cs2 =>
        match cs2.dropWhile pySpace with
        | '"' :: r =>
            let nm := r.takeWhile (fun c => c ≠ '"')
            match r.dropWhile (fun c => c ≠ '"') with
            | '"' :: cs4 =>
                tryStar (fun c => c ≠ '\x7d') cs4 (fun cs5 =>
                  match matchLit calKeyLit cs5 with
                  | none => none
                  | some cs6 =>
                      match numAfterWs cs6 with
                      | none => none
                      | some (q, cs7) =>
                          match cs7.dropWhile (fun c => c ≠ '\x7d') with
                          | '\x7d' :: restAfter =>
                              some (String.mk nm, q, restAfter)
                          | _ => none)
            | _ => none
        | _ => none)

/-- `re.finditer` of the per-item pattern: scan for `{`, and continue
after the end of each match.  `fuel` bounds the recursion and is called
with the list length (every step strictly shrinks the list). -/
def findItems : ℕ → List Char → List (String × ℚ)
  | 0, _ => []
  | _, [] => []
  | fuel + 1, c :: rest =>
      if c = '\x7b' then
        match matchItemBody rest with
        | some (nm, q, after) => (nm, q) :: findItems fuel after
        | none => findItems fuel rest
      else findItems fuel rest

/-- One salvaged food item (lines 452-456). -/
def mkSalvageItem (nm : String) (q : ℚ) : JsonVal :=
  .obj [("name", .str nm), ("calories", .num q),
        ("portion", .str "estimated portion")]

def descNeedle : List Char := "\"description\"".data

def tcNeedle : List Char := "\"total_calories\"".data

def descKeyLit : List Char := "\"description\":".data

def tcKeyLit : List Char := "\"total_calories\":".data

def confKeyLit : List Char := "\"confidence\":".data

def fiKeyLit : List Char := "\"food_items\":".data

/-- Strategy 1 (lines 429-466): regex salvage from the raw model
response, applicable when both guard substrings occur; returns the
five-key dict of line 458-464 with no defaulting and no clamping. -/
def salvageFromText (raw : String) : Option Dict :=
  let cs := raw.data
  if containsSub descNeedle cs && containsSub tcNeedle cs then
    some [("description", .str ((searchKeyStr descKeyLit cs).getD "Food item")),
          ("total_calories", .num ((searchKeyNum tcKeyLit cs).getD 150)),
          ("confidence", .num ((searchKeyNum confKeyLit cs).getD 70)),
          ("food_items", .arr
            (match foodItemsSpan fiKeyLit cs with
             | some span => (findItems span.length span).map
                 (fun p => mkSalvageItem p.1 p.2)
             | none => [])),
          ("notes", .str "Analysis recovered from partial response")]
  else none

def foodKeywords : List String :=
  ["food", "meal", "dish", "drink", "coffee", "tea", "juice", "sandwich",
   "salad", "soup", "rice", "chicken", "beef", "fish"]

/-- Strategy 2 (lines 468-487): generic fallback with conservative
constants; the description names the first known food keyword occurring
(case-insensitively) in the raw text. -/
def fallbackAnalysis (raw : String) : Dict :=
  [("description", .str
      (match foodKeywords.find? (fun k => containsSub k.data (raw.data.map Char.toLower)) with
       | some k => "Meal containing " ++ k
       | none => "Food item")),
   ("total_calories", .num 200),
   ("confidence", .num 50),
   ("food_items", .arr []),
   ("notes", .str "Fallback analysis due to response parsing issues")]

/-! ### Non-negativity of every number the salvage scanners produce -/

theorem decimalVal_nonneg (ip fp : List Char) : 0 ≤ decimalVal ip fp := by
  unfold decimalVal
  rw [Rat.mkRat_eq_div]
  positivity

theorem numAfterWs_nonneg {cs : List Char} {q : ℚ} {rest : List Char}
    (h : numAfterWs cs = some (q, rest)) : 0 ≤ q := by
  unfold numAfterWs at h
  simp only [] at h
  split at h
  · split at h
    · split at h
      · split at h <;>
          (simp only [Option.some.injEq, Prod.mk.injEq] at h;
           rw [← h.1]; exact decimalVal_nonneg _ _)
      · simp only [Option.some.injEq, Prod.mk.injEq] at h
        rw [← h.1]; exact decimalVal_nonneg _ _
    · exact absurd h (by simp)
  · exact absurd h (by simp)

theorem searchKeyNum_nonneg {pat cs : List Char} {q : ℚ}
    (h : searchKeyNum pat cs = some q) : 0 ≤ q := by
  induction cs with
  | nil => simp [searchKeyNum] at h
  | cons c rest ih =>
      unfold searchKeyNum at h
      split at h
      · split at h
        · simp only [Option.some.injEq] at h
          subst h
          exact numAfterWs_nonneg (by assumption)
        · exact ih h
      · exact ih h

/-! ### Model Dispatcher (lines 124-202)

The HTTP layer is abstracted as an oracle giving, for each model index
and attempt index, the outcome of that request.  The dispatcher records
the ordered list of (model index, attempt index) requests it performs,
so that claims about "how many attempts" are about the code's actual
control flow. -/

/-- Outcome of one `requests.post` call. -/
inductive HttpOutcome where
  | status (code : ℕ) (body : String)
  | timeout
  | netError (msg : String)

/-- Line 124-128: the ordered candidate list. -/
def modelsToTry (primary : String) : List String :=
  [primary, "google/gemini-2.5-flash-preview", "anthropic/claude-3.5-sonnet"]

/-- Line 170. -/
def statusErrMsg (model : String) (code : ℕ) (text : String) : String :=
  s!"Model {model} failed with status {code}: {text}"

/-- Line 176. -/
def timeoutErrMsg (model : String) (attempt : ℕ) : String :=
  s!"Model {model} timed out on attempt {attempt + 1}"

/-- Line 184. -/
def netErrMsg (model : String) (e : String) : String :=
  s!"Network error with model {model}: {e}"

/-- The per-model retry loop (lines 150-187), `for attempt in
range(max_retries)` with `max_retries = 2`.  Arguments: number of loop
iterations remaining, current attempt index, current `final_error`.
Returns (successful body?, `final_error` after this model, attempt
indices performed).  HTTP 200 succeeds; 429 retries while another
iteration remains (without recording an error); other statuses record
an error and abandon the model; timeout records an error and retries
while another iteration remains; network errors record and abandon. -/
def runAttempts (model : String) (out : ℕ → HttpOutcome) :
    ℕ → ℕ → Option String → Option String × Option String × List ℕ
  | 0, _, finalError => (none, finalError, [])
  | remaining + 1, attempt, finalError =>
      match out attempt with
      | .status 200 body => (some body, finalError, [attempt])
      | .status 429 _ =>
          if 0 < remaining then
            let r := runAttempts model out remaining (attempt + 1) finalError
            (r.1, r.2.1, attempt :: r.2.2)
          else (none, finalError, [attempt])
      | .status code text => (none, some (statusErrMsg model code text), [attempt])
      | .timeout =>
          if 0 < remaining then
            let r := runAttempts model out remaining (attempt + 1)
              (some (timeoutErrMsg model attempt))
            (r.1, r.2.1, attempt :: r.2.2)
          else (none, some (timeoutErrMsg model attempt), [attempt])
      | .netError e => (none, some (netErrMsg model e), [attempt])

/-- Result of the dispatch loop: which model (by index) succeeded with
which body, the final "All AI models failed" message otherwise, and the
ordered (model, attempt) trace. -/
structure DispatchOutcome where
  success : Option (ℕ × String)
  errorMsg : Option String
  attempts : List (ℕ × ℕ)

/-- Python `f"...{final_error}"` prints `None` for an unset error. -/
def pyShowOpt : Option String → String
  | none => "None"
  | some s => s

/-- Line 200. -/
def allFailedMsg (finalError : Option String) : String :=
  s!"All AI models failed. Last error: {pyShowOpt finalError}"

/-- Lines 133-202: try each candidate model in order with the per-model
retry loop; the first success short-circuits; exhaustion yields the
all-models-failed error carrying the last recorded error. -/
def dispatchGo (oracle : ℕ → ℕ → HttpOutcome) :
    List String → ℕ → Option String → DispatchOutcome
  | [], _, finalError => ⟨none, some (allFailedMsg finalError), []⟩
  | model :: rest, idx, finalError =>
      match runAttempts model (oracle idx) 2 0 finalError with
      | (some body, _, atts) =>
          ⟨some (idx, body), none, atts.map (fun a => (idx, a))⟩
      | (none, fe, atts) =>
          let r := dispatchGo oracle rest (idx + 1) fe
          ⟨r.success, r.errorMsg, atts.map (fun a => (idx, a)) ++ r.attempts⟩

def dispatchModels (oracle : ℕ → ℕ → HttpOutcome) (primary : String) : DispatchOutcome :=
  dispatchGo oracle (modelsToTry primary) 0 none

/-! ### Calorie-range note (`_get_calorie_range`, lines 672-682) -/

/-- Python `int()` on a float: truncation toward zero. -/
def pyInt (q : ℚ) : ℤ := if q < 0 then ⌈q⌉ else ⌊q⌋

/-- Lines 672-682: `lower = max(0, int(calories - 50))`,
`upper = int(calories + 50)`, then `lower = (lower // 25) * 25`,
`upper = ((upper + 24) // 25) * 25`, rendered as "lower-upper kcal".
Python `//` is floor division (`Int.fdiv`). -/
def getCalorieRange (calories : ℚ) : String :=
  let lower := max 0 (pyInt (calories - 50))
  let upper := pyInt (calories + 50)
  let lower25 := Int.fdiv lower 25 * 25
  let upper25 := Int.fdiv (upper + 24) 25 * 25
  toString lower25 ++ "-" ++ toString upper25 ++ " kcal"

/-- Modelled from the spec's words (§4.6/§8): round down to the nearest
multiple of 25. -/
def floor_to_25 (x : ℚ) : ℤ := 25 * ⌊x / 25⌋

/-- Modelled from the spec's words (§4.6/§8): round up to the nearest
multiple of 25. -/
def ceil_to_25 (x : ℚ) : ℤ := 25 * ⌈x / 25⌉

/-- The note the claim's formula prescribes:
`floor_to_25(max(0, calories - 50))`-`ceil_to_25(calories + 50)` kcal. -/
def specCalorieNote (calories : ℚ) : String :=
  toString (floor_to_25 (max 0 (calories - 50))) ++ "-" ++
    toString (ceil_to_25 (calories + 50)) ++ " kcal"

/-! ### Claim C2 -/

/-- C2: if the candidate parses as a JSON object but one of the three
required fields `description`, `total_calories`, `confidence` is absent,
the validation fails with the missing-field error for the first absent
field (checked in that order) — no analysis object is produced and no
defaulting rescues the field. -/
theorem missing_required_field_fails (d : Dict) :
    (dhas d "description" = false →
      validateAndEnrich d = .error (.missingField "description")) ∧
    (dhas d "description" = true → dhas d "total_calories" = false →
      validateAndEnrich d = .error (.missingField "total_calories")) ∧
    (dhas d "description" = true → dhas d "total_calories" = true →
        dhas d "confidence" = false →
      validateAndEnrich d = .error (.missingField "confidence")) := by
  refine ⟨fun h1 => ?_, fun h1 h2 => ?_, fun h1 h2 h3 => ?_⟩ <;>
    simp [validateAndEnrich, requiredCheck, h1, *]

/-- Witness for C2 at a concrete object lacking `total_calories`. -/
theorem missing_required_field_fails_witness :
    dhas [("description", JsonVal.str "Latte"), ("confidence", JsonVal.num 70)]
        "total_calories" = false ∧
    validateAndEnrich [("description", JsonVal.str "Latte"), ("confidence", JsonVal.num 70)]
      = .error (.missingField "total_calories") :=
  ⟨rfl, (missing_required_field_fails _).2.1 rfl rfl⟩

/-! ### Claim C7 -/

theorem pyInt_intCast (m : ℤ) : pyInt (m : ℚ) = m := by
  unfold pyInt
  split
  · exact Int.ceil_intCast m
  · exact Int.floor_intCast m

theorem floorQ25 (m : ℤ) : ⌊(m : ℚ) / 25⌋ = m / 25 := by
  exact_mod_cast Rat.floor_intCast_div_natCast m 25

theorem ceilQ25 (m : ℤ) : ⌈(m : ℚ) / 25⌉ = (m + 24) / 25 := by
  rw [show ((m : ℚ) / 25) = -(((-m : ℤ) : ℚ) / ((25 : ℕ) : ℚ)) from by push_cast; ring,
      Int.ceil_neg, Rat.floor_intCast_div_natCast]
  omega

/-- C7 counterexample: at `calories = 425.5` the code's note is
"375-475 kcal" but the claimed formula
`floor_to_25(max(0, c-50))`-`ceil_to_25(c+50)` gives "375-500 kcal":
`int()` truncation before the `//`-rounding loses the fractional part,
so the upper bound is not always `ceil_to_25(calories + 50)`. -/
theorem calorie_range_formula_cex :
    getCalorieRange (851/2) = "375-475 kcal" ∧
    specCalorieNote (851/2) = "375-500 kcal" ∧
    getCalorieRange (851/2) ≠ specCalorieNote (851/2) := by
  have h1 : getCalorieRange (851/2) = "375-475 kcal" := by
    simp only [getCalorieRange, pyInt]
    rw [show ((851/2 : ℚ) - 50) = 751/2 from by norm_num,
        show ((851/2 : ℚ) + 50) = 951/2 from by norm_num,
        if_neg (by norm_num : ¬((751/2 : ℚ) < 0)),
        if_neg (by norm_num : ¬((951/2 : ℚ) < 0)),
        show (⌊(751/2 : ℚ)⌋ : ℤ) = 375 from by norm_num,
        show (⌊(951/2 : ℚ)⌋ : ℤ) = 475 from by norm_num]
    rfl
  have h2 : specCalorieNote (851/2) = "375-500 kcal" := by
    simp only [specCalorieNote, floor_to_25, ceil_to_25]
    rw [show ((851/2 : ℚ) - 50) = 751/2 from by norm_num,
        show ((851/2 : ℚ) + 50) = 951/2 from by norm_num,
        max_eq_right (by norm_num : (0 : ℚ) ≤ 751/2),
        show ((751/2 : ℚ)/25) = 751/50 from by norm_num,
        show ((951/2 : ℚ)/25) = 951/50 from by norm_num,
        show (⌊(751/50 : ℚ)⌋ : ℤ) = 15 from by norm_num,
        show (951/50 : ℚ) = -(-951/50) from by norm_num, Int.ceil_neg,
        show (⌊(-951/50 : ℚ)⌋ : ℤ) = -20 from by norm_num]
    rfl
  exact ⟨h1, h2, by rw [h1, h2]; decide⟩

/-- C7 (amended): for every integer `total_calories > 0` the NB
calorie-range note equals "L-U kcal" with
`L = floor_to_25(max(0, calories - 50))` and
`U = ceil_to_25(calories + 50)`; in particular 437 yields
"375-500 kcal".  (For non-integer calories the code truncates toward
zero before rounding up, so U can fall one 25-step short.) -/
theorem calorie_range_formula_int :
    (∀ n : ℤ, 0 < n →
      getCalorieRange (n : ℚ) = specCalorieNote (n : ℚ)) ∧
    getCalorieRange 437 = "375-500 kcal" := by
  constructor
  · intro n hn
    have hfd : ∀ m : ℤ, Int.fdiv m 25 = m / 25 :=
      fun m => Int.fdiv_eq_ediv m (by norm_num)
    simp only [getCalorieRange, specCalorieNote, floor_to_25, ceil_to_25]
    rw [show ((n : ℚ) - 50) = ((n - 50 : ℤ) : ℚ) from by push_cast; ring,
        show ((n : ℚ) + 50) = ((n + 50 : ℤ) : ℚ) from by push_cast; ring,
        pyInt_intCast, pyInt_intCast,
        show (max 0 (((n - 50 : ℤ)) : ℚ)) = ((max 0 (n - 50) : ℤ) : ℚ) from by
          rw [Int.cast_max]; norm_num,
        floorQ25, ceilQ25, hfd, hfd]
    rw [Int.mul_comm]
    rw [show (25 * ((n + 50 + 24) / 25) : ℤ) = ((n + 50 + 24) / 25) * 25 from by ring]
  · simp only [getCalorieRange, pyInt]
    rw [show ((437 : ℚ) - 50) = 387 from by norm_num,
        show ((437 : ℚ) + 50) = 487 from by norm_num,
        if_neg (by norm_num : ¬((387 : ℚ) < 0)),
        if_neg (by norm_num : ¬((487 : ℚ) < 0)),
        show (⌊(387 : ℚ)⌋ : ℤ) = 387 from by norm_num,
        show (⌊(487 : ℚ)⌋ : ℤ) = 487 from by norm_num]
    rfl

/-- Witness for C7 at `calories = 437`. -/
theorem calorie_range_formula_int_witness :
    (0 : ℤ) < 437 ∧ getCalorieRange ((437 : ℤ) : ℚ) = specCalorieNote ((437 : ℤ) : ℚ) :=
  ⟨by norm_num, calorie_range_formula_int.1 437 (by norm_num)⟩

/-! ### Claim C9 -/

theorem extractFirstNumber_nonneg {cs : List Char} {q : ℚ}
    (h : extractFirstNumber cs = some q) : 0 ≤ q := by
  induction cs with
  | nil => simp [extractFirstNumber] at h
  | cons c rest ih =>
      unfold extractFirstNumber at h
      split at h
      · simp only [] at h
        split at h <;>
          (simp only [Option.some.injEq] at h; subst h; exact decimalVal_nonneg _ _)
      · exact ih h

theorem extractFirstNumber_isSome (cs : List Char) :
    (extractFirstNumber cs).isSome = cs.any Char.isDigit := by
  induction cs with
  | nil => rfl
  | cons c rest ih =>
      unfold extractFirstNumber
      by_cases h : c.isDigit
      · simp only [h, if_pos, List.any_cons, Bool.true_or]
        split <;> rfl
      · simp [h, ih]

/-- C9: `parse_numeric_value` on a string extracts the first unsigned
decimal literal — the sign is never part of the regex match, so the
result of a successful extraction is non-negative and `"-10"` parses to
10 — and falls back to the supplied default when the string has no
digit; int/float (and bool) inputs are returned unchanged, negative
ones included.  In particular the result is non-negative whenever the
default is (all call sites pass 0, 5 or 70). -/
theorem parse_numeric_value_spec :
    (∀ (s : String) (dflt : ℚ), 0 ≤ dflt → 0 ≤ parse_numeric_value (.str s) dflt) ∧
    (∀ (s : String) (dflt : ℚ), hasDigit s = true →
      ∃ q, extractFirstNumber s.data = some q ∧
        parse_numeric_value (.str s) dflt = q ∧ 0 ≤ q) ∧
    (∀ (s : String) (dflt : ℚ), hasDigit s = false →
      parse_numeric_value (.str s) dflt = dflt) ∧
    (∀ dflt : ℚ, parse_numeric_value (.str "-10") dflt = 10) ∧
    (∀ q dflt : ℚ, parse_numeric_value (.num q) dflt = q) := by
  have hnone : ∀ s : String, hasDigit s = false → extractFirstNumber s.data = none := by
    intro s h
    have h2 := extractFirstNumber_isSome s.data
    rw [show s.data.any Char.isDigit = hasDigit s from rfl, h] at h2
    exact Option.not_isSome_iff_eq_none.mp (by simp [h2])
  have hsome : ∀ s : String, hasDigit s = true → ∃ q, extractFirstNumber s.data = some q := by
    intro s h
    have h2 := extractFirstNumber_isSome s.data
    rw [show s.data.any Char.isDigit = hasDigit s from rfl, h] at h2
    exact Option.isSome_iff_exists.mp h2
  refine ⟨?_, ?_, ?_, ?_, ?_⟩
  · intro s dflt hd
    simp only [parse_numeric_value]
    split
    · exact extractFirstNumber_nonneg (by assumption)
    · exact hd
  · intro s dflt h
    obtain ⟨q, hq⟩ := hsome s h
    exact ⟨q, hq, by simp only [parse_numeric_value]; rw [hq], extractFirstNumber_nonneg hq⟩
  · intro s dflt h
    simp only [parse_numeric_value]
    rw [hnone s h]
  · intro dflt
    simp only [parse_numeric_value]
    rw [show extractFirstNumber "-10".data = some 10 from by decide]
  · intro q dflt
    rfl

/-- Witness for C9 at `"-10"`, `"abc"` and a negative number. -/
theorem parse_numeric_value_spec_witness :
    (0 ≤ (70 : ℚ) ∧ 0 ≤ parse_numeric_value (.str "-10") 70) ∧
    parse_numeric_value (.str "-10") 70 = 10 ∧
    (hasDigit "abc" = false ∧ parse_numeric_value (.str "abc") 70 = 70) ∧
    parse_numeric_value (.num (-5)) 70 = -5 :=
  ⟨⟨by norm_num, parse_numeric_value_spec.1 "-10" 70 (by norm_num)⟩,
   parse_numeric_value_spec.2.2.2.1 70,
   ⟨by decide, parse_numeric_value_spec.2.2.1 "abc" 70 (by decide)⟩,
   parse_numeric_value_spec.2.2.2.2 (-5) 70⟩

/-! ### Claims C1, C8, C10 -/

/-- C1 counterexample input: parses far enough to contain both guard
substrings but fails `json.loads` (trailing comma before the closing
brace), so the real pipeline reaches the regex-salvage strategy; its
`confidence` literal is 140. -/
def rawOverconfident : String :=
  "\x7b\"description\": \"x\", \"total_calories\": 100, \"confidence\": 140, \x7d"

/-- C1 counterexample: on the regex-salvage path a raw `confidence` of
140 is returned as-is — the salvage result is *not* clamped to [0,100],
so the claim fails on that path. -/
theorem confidence_not_clamped_on_salvage_cex :
    (salvageFromText rawOverconfident).isSome = true ∧
    dget ((salvageFromText rawOverconfident).getD []) "confidence"
      = some (.num 140) ∧
    ¬((140 : ℚ) ≤ 100) :=
  ⟨rfl, rfl, by norm_num⟩

/-- C1 (amended): the Validator clamps confidence into [0,100] on the
primary parse path, and the generic fallback hardcodes 50; but the
regex-salvage path only guarantees a non-negative confidence (the regex
matches an unsigned literal), which may exceed 100. -/
theorem confidence_range_by_path :
    (∀ d r : Dict, validateAndEnrich d = .ok r →
      ∃ q, dget r "confidence" = some (.num q) ∧ 0 ≤ q ∧ q ≤ 100) ∧
    (∀ (raw : String) (r : Dict), salvageFromText raw = some r →
      ∃ q, dget r "confidence" = some (.num q) ∧ 0 ≤ q) ∧
    (∀ raw : String, dget (fallbackAnalysis raw) "confidence" = some (.num 50)) := by
  refine ⟨fun d r h => (validateAndEnrich_ok_parts h).1, fun raw r h => ?_, fun raw => rfl⟩
  unfold salvageFromText at h
  simp only [] at h
  split at h
  · simp only [Option.some.injEq] at h
    subst h
    refine ⟨(searchKeyNum confKeyLit raw.data).getD 70, rfl, ?_⟩
    rcases hs : searchKeyNum confKeyLit raw.data with _ | q
    · simp [Option.getD]
    · simpa [Option.getD] using searchKeyNum_nonneg hs
  · exact absurd h (by simp)

/-- Witness input for the primary path: all optional fields supplied so
that the validation involves no (irreducible) rational arithmetic; the
raw confidence is the string "85%". -/
def dPrimaryW : Dict :=
  [("description", .str "Fried chicken"),
   ("total_calories", .str "fried chicken, ~300 kcal"),
   ("confidence", .str "85%"),
   ("health_category", .str "moderate"),
   ("health_score", .num 5),
   ("witty_comment", .str "w"),
   ("recommendations", .str "r"),
   ("fun_fact", .str "f"),
   ("total_carbs", .num 40),
   ("total_protein", .num 20),
   ("total_fat", .num 10),
   ("food_items", .arr [.obj [("name", .str "chicken"), ("calories", .num 300)]])]

/-- Witness for C1 on all three paths. -/
theorem confidence_range_by_path_witness :
    (∃ q, dget ((validateAndEnrich dPrimaryW).toOption.getD []) "confidence"
      = some (.num q) ∧ 0 ≤ q ∧ q ≤ 100) ∧
    (∃ q, dget ((salvageFromText rawOverconfident).getD []) "confidence"
      = some (.num q) ∧ 0 ≤ q) ∧
    dget (fallbackAnalysis "mystery text") "confidence" = some (.num 50) :=
  ⟨confidence_range_by_path.1 dPrimaryW _ rfl,
   confidence_range_by_path.2.1 rawOverconfident _ rfl,
   confidence_range_by_path.2.2 "mystery text"⟩

/-- C8: every analysis object returned by the Validator — on the
primary parse path, the regex-salvage path and the generic fallback
path alike — has `total_calories ≥ 0`: the primary path parses then
clamps negatives to 0, the salvage regex only matches unsigned
literals (default 150), and the fallback hardcodes 200. -/
theorem total_calories_nonneg_all_paths :
    (∀ d r : Dict, validateAndEnrich d = .ok r →
      ∃ q, dget r "total_calories" = some (.num q) ∧ 0 ≤ q) ∧
    (∀ (raw : String) (r : Dict), salvageFromText raw = some r →
      ∃ q, dget r "total_calories" = some (.num q) ∧ 0 ≤ q) ∧
    (∀ raw : String, dget (fallbackAnalysis raw) "total_calories" = some (.num 200)) := by
  refine ⟨fun d r h => (validateAndEnrich_ok_parts h).2, fun raw r h => ?_, fun raw => rfl⟩
  unfold salvageFromText at h
  simp only [] at h
  split at h
  · simp only [Option.some.injEq] at h
    subst h
    refine ⟨(searchKeyNum tcKeyLit raw.data).getD 150, rfl, ?_⟩
    rcases hs : searchKeyNum tcKeyLit raw.data with _ | q
    · simp [Option.getD]
    · simpa [Option.getD] using searchKeyNum_nonneg hs
  · exact absurd h (by simp)

/-- Witness input for C8's primary path: negative numeric calories,
clamped to 0. -/
def dNegCalW : Dict :=
  [("description", .str "Mystery"),
   ("total_calories", .num (-120)),
   ("confidence", .num 80),
   ("health_category", .str "moderate"),
   ("health_score", .num 5),
   ("witty_comment", .str "w"),
   ("recommendations", .str "r"),
   ("fun_fact", .str "f"),
   ("total_carbs", .num 40),
   ("total_protein", .num 20),
   ("total_fat", .num 10),
   ("food_items", .arr [.obj [("name", .str "mystery"), ("calories", .num 100)]])]

/-- Witness for C8 on all three paths. -/
theorem total_calories_nonneg_all_paths_witness :
    (∃ q, dget ((validateAndEnrich dNegCalW).toOption.getD []) "total_calories"
      = some (.num q) ∧ 0 ≤ q) ∧
    (∃ q, dget ((salvageFromText rawOverconfident).getD []) "total_calories"
      = some (.num q) ∧ 0 ≤ q) ∧
    dget (fallbackAnalysis "mystery text") "total_calories" = some (.num 200) :=
  ⟨total_calories_nonneg_all_paths.1 dNegCalW _ rfl,
   total_calories_nonneg_all_paths.2.1 rawOverconfident _ rfl,
   total_calories_nonneg_all_paths.2.2 "mystery text"⟩

/-- C10: whenever the regex-salvage path produces the result, the
returned object has exactly the keys `description`, `total_calories`,
`confidence`, `food_items`, `notes` (so none of the enrichment defaults
of the primary path are present), and its confidence is the raw
extracted value (or 70), with no range clamp applied. -/
theorem salvage_result_shape :
    ∀ (raw : String) (r : Dict), salvageFromText raw = some r →
      dkeys r = ["description", "total_calories", "confidence", "food_items", "notes"] ∧
      dget r "confidence" = some (.num ((searchKeyNum confKeyLit raw.data).getD 70)) ∧
      dget r "total_calories" = some (.num ((searchKeyNum tcKeyLit raw.data).getD 150)) := by
  intro raw r h
  unfold salvageFromText at h
  simp only [] at h
  split at h
  · simp only [Option.some.injEq] at h
    subst h
    exact ⟨rfl, rfl, rfl⟩
  · exact absurd h (by simp)

/-- C10 witness input: the spec's truncated-response example. -/
def rawLatte : String :=
  "\x7b\"description\": \"Latte\", \"total_calories\": 125, \"confidence\""

/-- Witness for C10 at the truncated Latte response. -/
theorem salvage_result_shape_witness :
    dkeys ((salvageFromText rawLatte).getD [])
      = ["description", "total_calories", "confidence", "food_items", "notes"] ∧
    dget ((salvageFromText rawLatte).getD []) "confidence"
      = some (.num ((searchKeyNum confKeyLit rawLatte.data).getD 70)) ∧
    dget ((salvageFromText rawLatte).getD []) "total_calories"
      = some (.num ((searchKeyNum tcKeyLit rawLatte.data).getD 150)) :=
  salvage_result_shape rawLatte _ rfl

/-! ### Claims C6 and C3 -/

/-- C6: when the primary model answers HTTP 429 on both of its
attempts and the secondary model then answers HTTP 200, the dispatcher
returns the secondary model's body, its attempt trace is exactly
primary #0, primary #1, secondary #0, and the third candidate model is
never attempted. -/
theorem dispatch_second_model_wins :
    ∀ (oracle : ℕ → ℕ → HttpOutcome) (primary t1 t2 b : String),
      oracle 0 0 = .status 429 t1 → oracle 0 1 = .status 429 t2 →
      oracle 1 0 = .status 200 b →
      (dispatchModels oracle primary).success = some (1, b) ∧
      (dispatchModels oracle primary).attempts = [(0, 0), (0, 1), (1, 0)] ∧
      ∀ p ∈ (dispatchModels oracle primary).attempts, p.1 ≠ 2 := by
  intro oracle primary t1 t2 b h00 h01 h10
  have hm0 : runAttempts primary (oracle 0) 2 0 none = (none, none, [0, 1]) := by
    have e1 : runAttempts primary (oracle 0) 1 1 none = (none, none, [1]) := by
      unfold runAttempts; rw [h01]; rfl
    show runAttempts primary (oracle 0) (1+1) 0 none = (none, none, [0, 1])
    unfold runAttempts
    rw [h00]
    show (if 0 < 1 then
        let r := runAttempts primary (oracle 0) 1 (0 + 1) none
        (r.1, r.2.1, 0 :: r.2.2)
      else (none, none, [0])) = (none, none, [0, 1])
    rw [if_pos (by norm_num)]
    simp only [e1]
  have hm1 : runAttempts "google/gemini-2.5-flash-preview" (oracle 1) 2 0 none
      = (some b, none, [0]) := by
    show runAttempts "google/gemini-2.5-flash-preview" (oracle 1) (1+1) 0 none = _
    unfold runAttempts
    rw [h10]
  have hd1 : dispatchGo oracle
      ["google/gemini-2.5-flash-preview", "anthropic/claude-3.5-sonnet"] 1 none
      = ⟨some (1, b), none, [(1, 0)]⟩ := by
    unfold dispatchGo
    rw [hm1]
    rfl
  have hfull : dispatchModels oracle primary
      = ⟨some (1, b), none, [(0, 0), (0, 1), (1, 0)]⟩ := by
    unfold dispatchModels modelsToTry dispatchGo
    rw [hm0]
    simp only [hd1]
    rfl
  have hatts : (dispatchModels oracle primary).attempts = [(0, 0), (0, 1), (1, 0)] := by
    rw [hfull]
  refine ⟨by rw [hfull], hatts, ?_⟩
  rw [hatts]
  decide

/-- Witness oracle for C6. -/
def oracle429then200 : ℕ → ℕ → HttpOutcome := fun m a =>
  if m = 0 then .status 429 "rate limited"
  else if m = 1 && a = 0 then .status 200 "secondary body"
  else .status 500 "server error"

/-- Witness for C6. -/
theorem dispatch_second_model_wins_witness :
    (dispatchModels oracle429then200 "primary-model").success
      = some (1, "secondary body") ∧
    (dispatchModels oracle429then200 "primary-model").attempts
      = [(0, 0), (0, 1), (1, 0)] ∧
    ∀ p ∈ (dispatchModels oracle429then200 "primary-model").attempts, p.1 ≠ 2 :=
  dispatch_second_model_wins oracle429then200 "primary-model"
    "rate limited" "rate limited" "secondary body" rfl rfl rfl

/-- The all-HTTP-500 oracle. -/
def oracle500 : ℕ → ℕ → HttpOutcome := fun _ _ => .status 500 "Internal Server Error"

/-- C3 counterexample: when every model returns HTTP 500 on every
attempt, the dispatcher does fail — but after exactly ONE attempt per
model ([(0,0), (1,0), (2,0)]), not after multiple attempts per model:
a non-200/non-429 status abandons the model immediately (line 173's
`break`); only 429 and timeout consume the retry budget. -/
theorem dispatch_500_cex :
    (dispatchModels oracle500 "primary-model").success = none ∧
    (dispatchModels oracle500 "primary-model").attempts = [(0, 0), (1, 0), (2, 0)] ∧
    ¬(2 ≤ (((dispatchModels oracle500 "primary-model").attempts.filter
        (fun p => p.1 = 0)).length)) :=
  ⟨rfl, rfl, by decide⟩

/-- C3 (amended): when every configured model returns HTTP 500 on every
attempt, the dispatcher fails with the all-models-failed error after
exactly one attempt per model — HTTP 500 is a hard per-model failure;
the retry budget of 2 attempts applies only to HTTP 429 and timeouts. -/
theorem dispatch_500_single_attempt_per_model :
    ∀ (oracle : ℕ → ℕ → HttpOutcome) (primary : String),
      (∀ m a, ∃ body, oracle m a = .status 500 body) →
      (dispatchModels oracle primary).success = none ∧
      (∃ msg, (dispatchModels oracle primary).errorMsg = some msg) ∧
      (dispatchModels oracle primary).attempts = [(0, 0), (1, 0), (2, 0)] := by
  intro oracle primary h
  obtain ⟨b0, hb0⟩ := h 0 0
  obtain ⟨b1, hb1⟩ := h 1 0
  obtain ⟨b2, hb2⟩ := h 2 0
  have hm : ∀ (model : String) (fe : Option String) (m : ℕ) (bm : String),
      oracle m 0 = .status 500 bm →
      runAttempts model (oracle m) 2 0 fe
        = (none, some (statusErrMsg model 500 bm), [0]) := by
    intro model fe m bm hb
    show runAttempts model (oracle m) (1+1) 0 fe = _
    unfold runAttempts
    rw [hb]
  have hd2 : dispatchGo oracle ["anthropic/claude-3.5-sonnet"] 2
      (some (statusErrMsg "google/gemini-2.5-flash-preview" 500 b1))
      = ⟨none, some (allFailedMsg (some (statusErrMsg "anthropic/claude-3.5-sonnet" 500 b2))),
          [(2, 0)]⟩ := by
    unfold dispatchGo
    rw [hm _ _ 2 b2 hb2]
    rfl
  have hd1 : dispatchGo oracle
      ["google/gemini-2.5-flash-preview", "anthropic/claude-3.5-sonnet"] 1
      (some (statusErrMsg primary 500 b0))
      = ⟨none, some (allFailedMsg (some (statusErrMsg "anthropic/claude-3.5-sonnet" 500 b2))),
          [(1, 0), (2, 0)]⟩ := by
    unfold dispatchGo
    rw [hm _ _ 1 b1 hb1]
    simp only [hd2]
    rfl
  have hfull : dispatchModels oracle primary
      = ⟨none, some (allFailedMsg (some (statusErrMsg "anthropic/claude-3.5-sonnet" 500 b2))),
          [(0, 0), (1, 0), (2, 0)]⟩ := by
    unfold dispatchModels modelsToTry dispatchGo
    rw [hm _ _ 0 b0 hb0]
    simp only [hd1]
    rfl
  exact ⟨by rw [hfull], ⟨_, by rw [hfull]⟩, by rw [hfull]⟩

/-- Witness for C3 (amended) at the all-500 oracle. -/
theorem dispatch_500_single_attempt_witness :
    (dispatchModels oracle500 "primary-m").success = none ∧
    (∃ msg, (dispatchModels oracle500 "primary-m").errorMsg = some msg) ∧
    (dispatchModels oracle500 "primary-m").attempts = [(0, 0), (1, 0), (2, 0)] :=
  dispatch_500_single_attempt_per_model oracle500 "primary-m"
    (fun _ _ => ⟨"Internal Server Error", rfl⟩)

/-! ### Claim C5 -/

/-- A synthesized item after its numeric fields went through
`parse_numeric_value` (the macro values are unchanged rationals; the
copied raw health score has been parsed). -/
def synthItemParsed (name : String) (cal hs : ℚ) : JsonVal :=
  .obj [("name", .str name),
        ("portion", .str "estimated portion"),
        ("calories", .num cal),
        ("carbs", .num (cal * (1/2) / 4)),
        ("protein", .num (cal * (1/5) / 4)),
        ("fat", .num (cal * (3/10) / 9)),
        ("cooking_method", .str "prepared"),
        ("health_score", .num hs)]

theorem parseItem_synth (n : String) (c : ℚ) (hs : JsonVal) :
    parseItemNums1 (synthItem n (.num c) c hs)
      = .ok (synthItemParsed n c (parse_numeric_value hs 5)) := rfl

theorem mapItems_three (c : ℚ) (hs : JsonVal) :
    mapItems [synthItem "Rice" (.num c) c hs, synthItem "Curry" (.num c) c hs,
              synthItem "Onions" (.num c) c hs]
      = .ok [synthItemParsed "Rice" c (parse_numeric_value hs 5),
             synthItemParsed "Curry" c (parse_numeric_value hs 5),
             synthItemParsed "Onions" c (parse_numeric_value hs 5)] := rfl

theorem parseFoodItemNums_eq {d : Dict} {v w : JsonVal}
    (hfi : dget d "food_items" = some v) (ht : truthy v = true)
    (hv : parseFoodItemsVal v = .ok w) :
    parseFoodItemNums d = .ok (dset d "food_items" w) := by
  unfold parseFoodItemNums
  rw [show dhas d "food_items" = true from by simp [dhas, hfi],
      dgetD_of_dget hfi, ht, hv]
  rfl

theorem reparseKey_get_self {d : Dict} {k : String} {v : JsonVal} (dflt : ℚ)
    (h : dget d k = some v) :
    dget (reparseKey d k dflt) k = some (.num (parse_numeric_value v dflt)) := by
  unfold reparseKey
  rw [show dhas d k = true from by simp [dhas, h], if_pos rfl, dget_dset_self,
      dgetD_of_dget h]

theorem parseTotalMacros_health_score {d : Dict} {v : JsonVal}
    (h : dget d "health_score" = some v) :
    dget (parseTotalMacros d) "health_score"
      = some (.num (parse_numeric_value v 5)) := by
  unfold parseTotalMacros
  rw [reparseKey_get_self 5 (by
    rw [reparseKey_pres _ _ (by decide), reparseKey_pres _ _ (by decide),
        reparseKey_pres _ _ (by decide)]
    exact h)]

theorem backfillMacros_ok {d : Dict} {q : ℚ}
    (h : dget d "total_calories" = some (.num q)) :
    ∃ r, backfillMacros d = .ok r := by
  unfold backfillMacros
  rw [dgetD_of_dget h]
  split
  · rw [show pyGtNum (.num q) 0 = .ok (decide (0 < q)) from rfl]
    rcases hq : decide (0 < q)
    · exact ⟨d, rfl⟩
    · exact ⟨_, rfl⟩
  · exact ⟨d, rfl⟩

theorem fillWitty_ok {d : Dict} {q : ℚ}
    (h : dget d "total_calories" = some (.num q)) :
    ∃ r, fillWitty d = .ok r := by
  unfold fillWitty
  split
  · simp only []
    rw [dgetD_of_dget h]
    split
    · exact ⟨_, rfl⟩
    · split
      · exfalso; simp [pyGtNum] at *
      · exact ⟨_, rfl⟩
      · split
        · exact ⟨_, rfl⟩
        · split
          · exfalso; simp [pyLtNum] at *
          · exact ⟨_, rfl⟩
          · exact ⟨_, rfl⟩
  · exact ⟨d, rfl⟩

/-- Composing the stage equations of the primary path. -/
theorem validateAndEnrich_eq {d dB dC dD : Dict}
    (hreq : requiredCheck d = none)
    (hsynth : synthFoodItems (applyDefaults d) = .ok dB)
    (hbf : backfillMacros dB = .ok dC)
    (hfw : fillWitty dC = .ok dD) :
    validateAndEnrich d
      = numericAndClampStage (fillFunFact (fillRecommendations dD)) := by
  unfold validateAndEnrich
  rw [hreq]
  simp only []
  rw [hsynth]
  simp only []
  rw [hbf]
  simp only []
  rw [hfw]

theorem synthFoodItems_eq {d : Dict} {D : String} {T : ℚ}
    (hm : foodItemsMissing d = true)
    (hdesc : dget d "description" = some (.str D))
    (htc : dget d "total_calories" = some (.num T)) :
    synthFoodItems d = .ok (dset d "food_items"
      (.arr (synthItemsOf D (.num T) T (dgetD d "health_score" (.num 5))))) := by
  unfold synthFoodItems
  rw [hm, if_pos rfl, dgetD_of_dget hdesc, dgetD_of_dget htc]
  rfl

/-- The multi-item branch of the synthesis, for a known name list. -/
theorem synthItemsOf_multi (D : String) (tcRaw : JsonVal) (T : ℚ) (hs : JsonVal)
    (names : List String)
    (hnames : (pySplit ',' D.data).map (fun cs => String.mk (pyStrip cs)) = names)
    (hcond : (names.length = 1 && !D.data.contains ',') = false) :
    synthItemsOf D tcRaw T hs
      = names.map (fun n =>
          synthItem n (.num (if names.isEmpty then T else T / (names.length : ℚ)))
            (if names.isEmpty then T else T / (names.length : ℚ)) hs) := by
  unfold synthItemsOf
  simp only [hnames, hcond]
  rw [if_neg (by simp)]

theorem rice_names :
    (pySplit ',' "Rice, Curry, Onions".data).map (fun cs => String.mk (pyStrip cs))
      = ["Rice", "Curry", "Onions"] := by decide

/-- Splitting "Rice, Curry, Onions" with 300 kcal yields three items of
100 kcal each. -/
theorem rice_items (hs : JsonVal) :
    synthItemsOf "Rice, Curry, Onions" (.num 300) 300 hs
      = [synthItem "Rice" (.num 100) 100 hs,
         synthItem "Curry" (.num 100) 100 hs,
         synthItem "Onions" (.num 100) 100 hs] := by
  rw [synthItemsOf_multi "Rice, Curry, Onions" (.num 300) 300 hs
      ["Rice", "Curry", "Onions"] rice_names (by decide)]
  rw [show (if (["Rice", "Curry", "Onions"] : List String).isEmpty then (300:ℚ)
      else 300 / ((["Rice", "Curry", "Onions"] : List String).length : ℚ)) = 100 from by
    norm_num]
  rfl

/-- The numeric/clamp stage applied to a dict holding the three
synthesized 100-kcal items. -/
theorem numericAndClampStage_c5 {d : Dict} {hv : JsonVal}
    (htc : dget d "total_calories" = some (.num 300))
    (hfi : dget d "food_items" = some (.arr
      [synthItem "Rice" (.num 100) 100 hv, synthItem "Curry" (.num 100) 100 hv,
       synthItem "Onions" (.num 100) 100 hv]))
    (hhs : dget d "health_score" = some hv) :
    ∃ r, numericAndClampStage d = .ok r ∧
      dget r "health_score" = some (.num (parse_numeric_value hv 5)) ∧
      dget r "food_items" = some (.arr
        [synthItemParsed "Rice" 100 (parse_numeric_value hv 5),
         synthItemParsed "Curry" 100 (parse_numeric_value hv 5),
         synthItemParsed "Onions" 100 (parse_numeric_value hv 5)]) := by
  unfold numericAndClampStage
  simp only []
  rw [dgetD_of_dget htc]
  rw [show parse_numeric_value (JsonVal.num 300) 0 = (300:ℚ) from rfl]
  generalize parse_numeric_value
    (dgetD (dset d "total_calories" (JsonVal.num 300)) "confidence" (JsonVal.num 0)) 70 = cq
  have hX : dget (dset (dset d "total_calories" (JsonVal.num 300)) "confidence"
      (JsonVal.num cq)) "food_items" = some (.arr
      [synthItem "Rice" (.num 100) 100 hv, synthItem "Curry" (.num 100) 100 hv,
       synthItem "Onions" (.num 100) 100 hv]) := by
    rw [dget_dset_ne _ _ (by decide), dget_dset_ne _ _ (by decide)]
    exact hfi
  rw [parseFoodItemNums_eq hX rfl rfl]
  simp only []
  have hXhs : dget (dset (dset (dset d "total_calories" (JsonVal.num 300)) "confidence"
      (JsonVal.num cq)) "food_items" (JsonVal.arr
      [synthItemParsed "Rice" 100 (parse_numeric_value hv 5),
       synthItemParsed "Curry" 100 (parse_numeric_value hv 5),
       synthItemParsed "Onions" 100 (parse_numeric_value hv 5)])) "health_score"
      = some hv := by
    rw [dget_dset_ne _ _ (by decide), dget_dset_ne _ _ (by decide),
        dget_dset_ne _ _ (by decide)]
    exact hhs
  have hPhs := parseTotalMacros_health_score hXhs
  have hPfi : dget (parseTotalMacros (dset (dset (dset d "total_calories"
      (JsonVal.num 300)) "confidence" (JsonVal.num cq)) "food_items" (JsonVal.arr
      [synthItemParsed "Rice" 100 (parse_numeric_value hv 5),
       synthItemParsed "Curry" 100 (parse_numeric_value hv 5),
       synthItemParsed "Onions" 100 (parse_numeric_value hv 5)]))) "food_items"
      = some (.arr
      [synthItemParsed "Rice" 100 (parse_numeric_value hv 5),
       synthItemParsed "Curry" 100 (parse_numeric_value hv 5),
       synthItemParsed "Onions" 100 (parse_numeric_value hv 5)]) := by
    rw [parseTotalMacros_pres _ (by decide) (by decide) (by decide) (by decide),
        dget_dset_self]
  rw [if_neg (by norm_num : ¬((300:ℚ) < 0))]
  by_cases hc : cq < 0 ∨ 100 < cq
  · rw [if_pos hc]
    refine ⟨_, rfl, ?_, ?_⟩
    · rw [dget_dset_ne _ _ (by decide)]
      exact hPhs
    · rw [dget_dset_ne _ _ (by decide)]
      exact hPfi
  · rw [if_neg hc]
    exact ⟨_, rfl, hPhs, hPfi⟩

/-- C5: for a parsed object with description "Rice, Curry, Onions",
total_calories 300 and `food_items` absent or empty, the Validator
synthesizes exactly three food items named Rice, Curry, Onions, each
with calories = 100 (300 split evenly) and health_score equal to the
analysis object's top-level health_score. -/
theorem synthesize_rice_curry_onions :
    ∀ d : Dict,
      dget d "description" = some (.str "Rice, Curry, Onions") →
      dget d "total_calories" = some (.num 300) →
      dhas d "confidence" = true →
      (dget d "food_items" = none ∨ dget d "food_items" = some (.arr [])) →
      ∃ (r : Dict) (hsq : ℚ),
        validateAndEnrich d = .ok r ∧
        dget r "health_score" = some (.num hsq) ∧
        dget r "food_items" = some (.arr
          [synthItemParsed "Rice" 100 hsq, synthItemParsed "Curry" 100 hsq,
           synthItemParsed "Onions" 100 hsq]) := by
  intro d h1 h2 h3 h4
  have hreq : requiredCheck d = none := by
    unfold requiredCheck
    rw [dhas_of_dget h1, dhas_of_dget h2, h3]
    rfl
  have hAdesc : dget (applyDefaults d) "description"
      = some (.str "Rice, Curry, Onions") := by
    rw [dget_applyDefaults_ne d (by decide)]; exact h1
  have hAtc : dget (applyDefaults d) "total_calories" = some (.num 300) := by
    rw [dget_applyDefaults_ne d (by decide)]; exact h2
  have hAfi : dget (applyDefaults d) "food_items" = dget d "food_items" :=
    dget_applyDefaults_ne d (by decide)
  have hAhs : dget (applyDefaults d) "health_score"
      = some ((dget d "health_score").getD (.num 5)) :=
    dget_applyDefaults_health_score d
  have hm : foodItemsMissing (applyDefaults d) = true := by
    unfold foodItemsMissing
    rw [hAfi]
    rcases h4 with h4 | h4 <;> (rw [h4]; try rfl)
  have hvv : dgetD (applyDefaults d) "health_score" (.num 5)
      = (dget d "health_score").getD (.num 5) := by
    unfold dgetD; rw [hAhs]; rfl
  have hsynth : synthFoodItems (applyDefaults d)
      = .ok (dset (applyDefaults d) "food_items"
          (.arr [synthItem "Rice" (.num 100) 100 ((dget d "health_score").getD (.num 5)),
                 synthItem "Curry" (.num 100) 100 ((dget d "health_score").getD (.num 5)),
                 synthItem "Onions" (.num 100) 100 ((dget d "health_score").getD (.num 5))])) := by
    have hbase := synthFoodItems_eq hm hAdesc hAtc
    rw [hvv, rice_items] at hbase
    exact hbase
  have hBtc : dget (dset (applyDefaults d) "food_items"
      (.arr [synthItem "Rice" (.num 100) 100 ((dget d "health_score").getD (.num 5)),
             synthItem "Curry" (.num 100) 100 ((dget d "health_score").getD (.num 5)),
             synthItem "Onions" (.num 100) 100 ((dget d "health_score").getD (.num 5))]))
      "total_calories" = some (.num 300) := by
    rw [dget_dset_ne _ _ (by decide)]; exact hAtc
  obtain ⟨dC, hbf⟩ := backfillMacros_ok hBtc
  have hCtc : dget dC "total_calories" = some (.num 300) := by
    rw [backfillMacros_pres hbf (by decide) (by decide) (by decide)]; exact hBtc
  have hCfi : dget dC "food_items" = some
      (.arr [synthItem "Rice" (.num 100) 100 ((dget d "health_score").getD (.num 5)),
             synthItem "Curry" (.num 100) 100 ((dget d "health_score").getD (.num 5)),
             synthItem "Onions" (.num 100) 100 ((dget d "health_score").getD (.num 5))]) := by
    rw [backfillMacros_pres hbf (by decide) (by decide) (by decide), dget_dset_self]
  have hChs : dget dC "health_score"
      = some ((dget d "health_score").getD (.num 5)) := by
    rw [backfillMacros_pres hbf (by decide) (by decide) (by decide),
        dget_dset_ne _ _ (by decide)]
    exact hAhs
  obtain ⟨dD, hfw⟩ := fillWitty_ok hCtc
  have hDtc : dget dD "total_calories" = some (.num 300) := by
    rw [fillWitty_pres hfw (by decide)]; exact hCtc
  have hDfi : dget dD "food_items" = some
      (.arr [synthItem "Rice" (.num 100) 100 ((dget d "health_score").getD (.num 5)),
             synthItem "Curry" (.num 100) 100 ((dget d "health_score").getD (.num 5)),
             synthItem "Onions" (.num 100) 100 ((dget d "health_score").getD (.num 5))]) := by
    rw [fillWitty_pres hfw (by decide)]; exact hCfi
  have hDhs : dget dD "health_score"
      = some ((dget d "health_score").getD (.num 5)) := by
    rw [fillWitty_pres hfw (by decide)]; exact hChs
  have hEtc : dget (fillFunFact (fillRecommendations dD)) "total_calories"
      = some (.num 300) := by
    rw [fillFunFact_pres _ (by decide), fillRecommendations_pres _ (by decide)]
    exact hDtc
  have hEfi : dget (fillFunFact (fillRecommendations dD)) "food_items" = some
      (.arr [synthItem "Rice" (.num 100) 100 ((dget d "health_score").getD (.num 5)),
             synthItem "Curry" (.num 100) 100 ((dget d "health_score").getD (.num 5)),
             synthItem "Onions" (.num 100) 100 ((dget d "health_score").getD (.num 5))]) := by
    rw [fillFunFact_pres _ (by decide), fillRecommendations_pres _ (by decide)]
    exact hDfi
  have hEhs : dget (fillFunFact (fillRecommendations dD)) "health_score"
      = some ((dget d "health_score").getD (.num 5)) := by
    rw [fillFunFact_pres _ (by decide), fillRecommendations_pres _ (by decide)]
    exact hDhs
  obtain ⟨r, hr, hrhs, hrfi⟩ := numericAndClampStage_c5 hEtc hEfi hEhs
  exact ⟨r, parse_numeric_value ((dget d "health_score").getD (.num 5)) 5,
    by rw [validateAndEnrich_eq hreq hsynth hbf hfw]; exact hr, hrhs, hrfi⟩

/-- Witness for C5 at a concrete object with health_score 7. -/
theorem synthesize_rice_curry_onions_witness :
    ∃ (r : Dict) (hsq : ℚ),
      validateAndEnrich
        [("description", JsonVal.str "Rice, Curry, Onions"),
         ("total_calories", JsonVal.num 300),
         ("confidence", JsonVal.num 90),
         ("health_score", JsonVal.num 7)] = .ok r ∧
      dget r "health_score" = some (.num hsq) ∧
      dget r "food_items" = some (.arr
        [synthItemParsed "Rice" 100 hsq, synthItemParsed "Curry" 100 hsq,
         synthItemParsed "Onions" 100 hsq]) :=
  synthesize_rice_curry_onions
    [("description", JsonVal.str "Rice, Curry, Onions"),
     ("total_calories", JsonVal.num 300),
     ("confidence", JsonVal.num 90),
     ("health_score", JsonVal.num 7)] rfl rfl rfl (Or.inl rfl)

/-! ### Claim C4 -/

/-- The key holds a string. -/
def keyStr (d : Dict) (k : String) : Bool :=
  match dget d k with
  | some (.str _) => true
  | _ => false

/-- The key holds a non-empty string. -/
def keyNonemptyStr (d : Dict) (k : String) : Bool :=
  match dget d k with
  | some (.str s) => !(s == "")
  | _ => false

/-- The key holds a number. -/
def keyNum (d : Dict) (k : String) : Bool :=
  match dget d k with
  | some (.num _) => true
  | _ => false

/-- The key holds a non-negative number. -/
def keyNumGE0 (d : Dict) (k : String) : Bool :=
  match dget d k with
  | some (.num q) => decide (0 ≤ q)
  | _ => false

/-- The key holds a number in [0,100]. -/
def keyNumRange01 (d : Dict) (k : String) : Bool :=
  match dget d k with
  | some (.num q) => decide (0 ≤ q ∧ q ≤ 100)
  | _ => false

/-- The item field is absent or numeric. -/
def numOrAbsent (fs : Dict) (k : String) : Bool :=
  match dget fs k with
  | none => true
  | some (.num _) => true
  | some _ => false

/-- A food item whose numeric sub-fields are already plain numbers. -/
def itemReady : JsonVal → Bool
  | .obj fs => numOrAbsent fs "calories" && numOrAbsent fs "carbs" &&
      numOrAbsent fs "protein" && numOrAbsent fs "fat" &&
      numOrAbsent fs "health_score"
  | _ => false

theorem keyStr_elim {d : Dict} {k : String} (h : keyStr d k = true) :
    ∃ s, dget d k = some (.str s) := by
  unfold keyStr at h
  split at h
  · exact ⟨_, by assumption⟩
  · exact absurd h (by simp)

theorem keyNonemptyStr_elim {d : Dict} {k : String} (h : keyNonemptyStr d k = true) :
    ∃ s, dget d k = some (.str s) ∧ s ≠ "" := by
  unfold keyNonemptyStr at h
  split at h
  · exact ⟨_, by assumption, by simpa using h⟩
  · exact absurd h (by simp)

theorem keyNum_elim {d : Dict} {k : String} (h : keyNum d k = true) :
    ∃ q, dget d k = some (.num q) := by
  unfold keyNum at h
  split at h
  · exact ⟨_, by assumption⟩
  · exact absurd h (by simp)

theorem keyNumGE0_elim {d : Dict} {k : String} (h : keyNumGE0 d k = true) :
    ∃ q, dget d k = some (.num q) ∧ 0 ≤ q := by
  unfold keyNumGE0 at h
  split at h
  · exact ⟨_, by assumption, by simpa using h⟩
  · exact absurd h (by simp)

theorem keyNumRange01_elim {d : Dict} {k : String} (h : keyNumRange01 d k = true) :
    ∃ q, dget d k = some (.num q) ∧ 0 ≤ q ∧ q ≤ 100 := by
  unfold keyNumRange01 at h
  split at h
  · exact ⟨_, by assumption, by simpa using h⟩
  · exact absurd h (by simp)

/-- Hypotheses of the amended round-trip claim: every MealAnalysis
field present with a plain, in-range value, the three commentary
strings non-empty (an empty one is falsy in Python and would be
synthesized over), and total_carbs ≠ 0 (a zero value triggers the
50/20/30 macro back-fill). -/
def roundTripReady (d : Dict) : Bool :=
  keyStr d "description" &&
  keyNumGE0 d "total_calories" &&
  keyNumRange01 d "confidence" &&
  keyStr d "health_category" &&
  keyNum d "health_score" &&
  keyNonemptyStr d "witty_comment" &&
  keyNonemptyStr d "recommendations" &&
  keyNonemptyStr d "fun_fact" &&
  (match dget d "total_carbs" with
   | some (.num q) => decide (0 ≤ q) && !(q == 0)
   | _ => false) &&
  keyNum d "total_protein" &&
  keyNum d "total_fat" &&
  (match dget d "food_items" with
   | some (.arr items) => !items.isEmpty && items.all itemReady
   | _ => false)

theorem reparseKey_id {fs : Dict} {k : String} (dflt : ℚ)
    (h : numOrAbsent fs k = true) : reparseKey fs k dflt = fs := by
  unfold numOrAbsent at h
  unfold reparseKey
  rcases hg : dget fs k with _ | v
  · rw [if_neg (by simp [dhas, hg])]
  · rw [hg] at h
    rcases v with _ | b | q | s | xs | fs2
    · exact absurd h (by simp)
    · exact absurd h (by simp)
    · rw [if_pos (by simp [dhas, hg]), dgetD_of_dget hg]
      exact dset_id hg
    · exact absurd h (by simp)
    · exact absurd h (by simp)
    · exact absurd h (by simp)

theorem parseItemFieldsObj_id {fs : Dict}
    (h : itemReady (.obj fs) = true) : parseItemFieldsObj fs = fs := by
  unfold itemReady at h
  simp only [Bool.and_eq_true] at h
  obtain ⟨⟨⟨⟨h1, h2⟩, h3⟩, h4⟩, h5⟩ := h
  unfold parseItemFieldsObj
  rw [reparseKey_id 0 h1, reparseKey_id 0 h2, reparseKey_id 0 h3,
      reparseKey_id 0 h4, reparseKey_id 5 h5]

theorem mapItems_id {items : List JsonVal}
    (h : ∀ x ∈ items, itemReady x = true) : mapItems items = .ok items := by
  induction items with
  | nil => rfl
  | cons x xs ih =>
      have hx := h x (by simp)
      unfold mapItems
      rcases x with _ | b | q | s | ys | fs
      · exact absurd hx (by simp [itemReady])
      · exact absurd hx (by simp [itemReady])
      · exact absurd hx (by simp [itemReady])
      · exact absurd hx (by simp [itemReady])
      · exact absurd hx (by simp [itemReady])
      · rw [show parseItemNums1 (.obj fs) = .ok (.obj (parseItemFieldsObj fs)) from rfl,
            parseItemFieldsObj_id hx, ih (fun y hy => h y (by simp [hy]))]

/-- The numeric/clamp stage is the identity on an already-normalized
dict. -/
theorem numericAndClampStage_id {d : Dict} {tc cf : ℚ} {items : List JsonVal}
    (htc : dget d "total_calories" = some (.num tc)) (htc0 : 0 ≤ tc)
    (hcf : dget d "confidence" = some (.num cf)) (hcf0 : 0 ≤ cf) (hcf1 : cf ≤ 100)
    (hfi : dget d "food_items" = some (.arr items)) (hne : items ≠ [])
    (hready : ∀ x ∈ items, itemReady x = true)
    (hcb : numOrAbsent d "total_carbs" = true)
    (hpr : numOrAbsent d "total_protein" = true)
    (hft : numOrAbsent d "total_fat" = true)
    (hhs : numOrAbsent d "health_score" = true) :
    numericAndClampStage d = .ok d := by
  unfold numericAndClampStage
  simp only []
  rw [dgetD_of_dget htc, show parse_numeric_value (JsonVal.num tc) 0 = tc from rfl,
      dset_id htc, dgetD_of_dget hcf,
      show parse_numeric_value (JsonVal.num cf) 70 = cf from rfl, dset_id hcf]
  rw [parseFoodItemNums_eq hfi (by simp [truthy, hne])
      (show parseFoodItemsVal (.arr items) = .ok (.arr items) from by
        simp only [parseFoodItemsVal]
        rw [mapItems_id hready]),
      dset_id hfi]
  simp only []
  rw [show parseTotalMacros d = d from by
    unfold parseTotalMacros
    rw [reparseKey_id 0 hcb, reparseKey_id 0 hpr, reparseKey_id 0 hft,
        reparseKey_id 5 hhs]]
  rw [if_neg (show ¬(cf < 0 ∨ 100 < cf) from by
        push_neg
        exact ⟨hcf0, hcf1⟩),
      if_neg (by simp [not_lt, htc0])]

/-- C4 (amended): the Validator & Enricher is the identity on a fully
populated, in-range analysis object provided additionally that the
commentary strings are non-empty and total_carbs ≠ 0: it returns the
object with every field unchanged.  (When total_carbs = 0 and
total_calories > 0, the back-fill overwrites all three macros — see the
counterexample.) -/
theorem round_trip_preserved :
    ∀ d : Dict, roundTripReady d = true → validateAndEnrich d = .ok d := by
  intro d h
  unfold roundTripReady at h
  simp only [Bool.and_eq_true] at h
  obtain ⟨⟨⟨⟨⟨⟨⟨⟨⟨⟨⟨hdesc, htcb⟩, hcfb⟩, hhcb⟩, hhsb⟩, hwcb⟩, hrcb⟩, hffb⟩, hcbb⟩,
    hprb⟩, hftb⟩, hfib⟩ := h
  obtain ⟨ds, hdesc⟩ := keyStr_elim hdesc
  obtain ⟨tc, htc, htc0⟩ := keyNumGE0_elim htcb
  obtain ⟨cf, hcf, hcf0, hcf1⟩ := keyNumRange01_elim hcfb
  obtain ⟨hc, hhc⟩ := keyStr_elim hhcb
  obtain ⟨hs, hhs⟩ := keyNum_elim hhsb
  obtain ⟨wc, hwc, hwcne⟩ := keyNonemptyStr_elim hwcb
  obtain ⟨rc, hrc, hrcne⟩ := keyNonemptyStr_elim hrcb
  obtain ⟨ff, hff, hffne⟩ := keyNonemptyStr_elim hffb
  have hcb : ∃ q, dget d "total_carbs" = some (.num q) ∧ q ≠ 0 := by
    rcases hg : dget d "total_carbs" with _ | v <;> rw [hg] at hcbb
    · exact absurd hcbb (by simp)
    · rcases v with _ | b | q | s | xs | fs2
      · exact absurd hcbb (by simp)
      · exact absurd hcbb (by simp)
      · simp only [Bool.and_eq_true] at hcbb
        exact ⟨q, rfl, by simpa using hcbb.2⟩
      · exact absurd hcbb (by simp)
      · exact absurd hcbb (by simp)
      · exact absurd hcbb (by simp)
  obtain ⟨cb, hcbg, hcbne⟩ := hcb
  obtain ⟨pr, hpr⟩ := keyNum_elim hprb
  obtain ⟨ft, hft⟩ := keyNum_elim hftb
  have hfi : ∃ items, dget d "food_items" = some (.arr items) ∧ items ≠ [] ∧
      ∀ x ∈ items, itemReady x = true := by
    rcases hg : dget d "food_items" with _ | v <;> rw [hg] at hfib
    · exact absurd hfib (by simp)
    · rcases v with _ | b | q | s | xs | fs2
      · exact absurd hfib (by simp)
      · exact absurd hfib (by simp)
      · exact absurd hfib (by simp)
      · exact absurd hfib (by simp)
      · simp only [Bool.and_eq_true] at hfib
        refine ⟨xs, rfl, ?_, ?_⟩
        · simpa using hfib.1
        · simpa [List.all_eq_true] using hfib.2
      · exact absurd hfib (by simp)
  obtain ⟨items, hfig, hfine, hfiready⟩ := hfi
  have hreq : requiredCheck d = none := by
    unfold requiredCheck
    rw [dhas_of_dget hdesc, dhas_of_dget htc, dhas_of_dget hcf]
    rfl
  have hdef : applyDefaults d = d := by
    unfold applyDefaults
    rw [defaultIfAbsent_of_dget _ hhc, defaultIfAbsent_of_dget _ hhs,
        defaultIfAbsent_of_dget _ hwc, defaultIfAbsent_of_dget _ hrc,
        defaultIfAbsent_of_dget _ hff, defaultIfAbsent_of_dget _ hcbg,
        defaultIfAbsent_of_dget _ hpr, defaultIfAbsent_of_dget _ hft]
  have hsynth : synthFoodItems d = .ok d := by
    unfold synthFoodItems
    rw [show foodItemsMissing d = false from by
      unfold foodItemsMissing
      rw [hfig]
      simp [truthy, hfine]]
    rfl
  have hbf : backfillMacros d = .ok d := by
    unfold backfillMacros
    rw [dgetD_of_dget hcbg,
        show pyEqNum (.num cb) 0 = decide (cb = 0) from rfl,
        if_neg (by simp [hcbne])]
  have hfw : fillWitty d = .ok d := by
    unfold fillWitty
    rw [dgetD_of_dget hwc,
        if_neg (by simp [truthy, hwcne])]
  have hrec : fillRecommendations d = d := by
    unfold fillRecommendations
    rw [dgetD_of_dget hrc, if_neg (by simp [truthy, hrcne])]
  have hfun : fillFunFact d = d := by
    unfold fillFunFact
    rw [dgetD_of_dget hff, if_neg (by simp [truthy, hffne])]
  rw [validateAndEnrich_eq hreq (by rw [hdef]; exact hsynth) hbf hfw, hrec, hfun]
  exact numericAndClampStage_id htc htc0 hcf hcf0 hcf1 hfig hfine hfiready
    (by unfold numOrAbsent; rw [hcbg]) (by unfold numOrAbsent; rw [hpr])
    (by unfold numOrAbsent; rw [hft]) (by unfold numOrAbsent; rw [hhs])

/-- A fully populated, in-range analysis object (valid per the claim as
stated) whose total_carbs is 0: the macro back-fill then alters it. -/
def dCarbsZero : Dict :=
  [("description", .str "Grilled chicken salad"),
   ("food_items", .arr [.obj
     [("name", .str "salad"), ("portion", .str "large bowl"),
      ("calories", .num 500), ("carbs", .num 0), ("protein", .num 50),
      ("fat", .num 10), ("cooking_method", .str "grilled"),
      ("health_score", .num 6)]]),
   ("total_calories", .num 500),
   ("confidence", .num 80),
   ("total_carbs", .num 0),
   ("total_protein", .num 50),
   ("total_fat", .num 10),
   ("health_category", .str "moderate"),
   ("health_score", .num 6),
   ("witty_comment", .str "Tasty!"),
   ("recommendations", .str "Enjoy your meal"),
   ("fun_fact", .str "Chicken is rich in protein"),
   ("notes", .str "none")]

/-- Modelled from the spec: §3's MealAnalysis data model — every field
present with a value of the documented type and range (description and
commentary strings, total_calories ≥ 0, confidence in [0,100],
health_category one of the three categories, health_score in [1,10],
macros ≥ 0, a non-empty food_items list of well-typed items, notes).
This is the claim's own notion of "well-formed, valid, in-range input",
used to state the counterexample. -/
def specValidInput (d : Dict) : Bool :=
  keyStr d "description" &&
  keyNumGE0 d "total_calories" &&
  keyNumRange01 d "confidence" &&
  (pyEqStr (dgetD d "health_category" .null) "healthy" ||
   pyEqStr (dgetD d "health_category" .null) "moderate" ||
   pyEqStr (dgetD d "health_category" .null) "junk") &&
  (match dget d "health_score" with
   | some (.num q) => decide (1 ≤ q ∧ q ≤ 10)
   | _ => false) &&
  keyNonemptyStr d "witty_comment" &&
  keyNonemptyStr d "recommendations" &&
  keyNonemptyStr d "fun_fact" &&
  keyNumGE0 d "total_carbs" &&
  keyNumGE0 d "total_protein" &&
  keyNumGE0 d "total_fat" &&
  (match dget d "food_items" with
   | some (.arr items) => !items.isEmpty && items.all itemReady
   | _ => false) &&
  keyStr d "notes"

/-- C4 counterexample: `dCarbsZero` is well-formed with every field
present, valid and in range (total_carbs = 0 is a valid non-negative
number), yet validation alters it: because total_carbs == 0 and
total_calories > 0, lines 338-343 overwrite total_carbs, total_protein
and total_fat with the 50/20/30 estimate — total_protein changes from
50 to 25. -/
theorem round_trip_cex :
    specValidInput dCarbsZero = true ∧
    dget dCarbsZero "total_protein" = some (.num 50) ∧
    dget ((validateAndEnrich dCarbsZero).toOption.getD []) "total_protein"
      = some (.num (500 * (1/5) / 4)) ∧
    (500 * (1/5) / 4 : ℚ) ≠ 50 :=
  ⟨by decide, rfl, rfl, by norm_num⟩

/-- Witness input for the amended C4: as `dCarbsZero` but with nonzero
total_carbs. -/
def dRoundTrip : Dict :=
  [("description", .str "Grilled chicken salad"),
   ("food_items", .arr [.obj
     [("name", .str "salad"), ("portion", .str "large bowl"),
      ("calories", .num 500), ("carbs", .num 40), ("protein", .num 50),
      ("fat", .num 10), ("cooking_method", .str "grilled"),
      ("health_score", .num 6)]]),
   ("total_calories", .num 500),
   ("confidence", .num 80),
   ("total_carbs", .num 40),
   ("total_protein", .num 50),
   ("total_fat", .num 10),
   ("health_category", .str "moderate"),
   ("health_score", .num 6),
   ("witty_comment", .str "Tasty!"),
   ("recommendations", .str "Enjoy your meal"),
   ("fun_fact", .str "Chicken is rich in protein"),
   ("notes", .str "none")]

/-- Witness for C4 (amended). -/
theorem round_trip_preserved_witness :
    roundTripReady dRoundTrip = true ∧
    validateAndEnrich dRoundTrip = .ok dRoundTrip :=
  ⟨by decide, round_trip_preserved dRoundTrip (by decide)⟩

end MealMetrics
